import Mathlib

/-!
A shallow embedding of the littlevm bytecode interpreter (littlevm.go).

Byte arenas (main memory MM, bytecode memory BM, stack memory SM) are
modelled as total functions from offsets to byte values; the Go byte type
keeps every cell below 256, which the model enforces by reducing reads
modulo 256.  The three 64-bit registers are natural numbers, with every
register update performed modulo 2 to the 64, exactly as Go uint64
arithmetic wraps.  PrintErrorAndExit terminates the process in Go; the
model makes one interpreter step return either the successor state or an
error value carrying the message together with the machine state at the
moment of the exit.
-/

namespace LittleVM

/-- The uint64 modulus, 2 to the 64. -/
def U64 : Nat := 18446744073709551616

/-- Go uint64 addition (wraps modulo 2 to the 64). -/
def add64 (a b : Nat) : Nat := (a + b) % U64

/-- Go uint64 subtraction (wraps modulo 2 to the 64): the two's-complement
of the subtrahend is added to the minuend. -/
def sub64 (a b : Nat) : Nat := (U64 - b % U64 + a) % U64

/-- Go uint64 left shift: shift counts of 64 or more give 0. -/
def shl64 (x k : Nat) : Nat := if k < 64 then (x <<< k) % U64 else 0

/-- Go uint64 right shift: shift counts of 64 or more give 0. -/
def shr64 (x k : Nat) : Nat := if k < 64 then x >>> k else 0

/-- Go uint64 bitwise complement. -/
def not64 (x : Nat) : Nat := (U64 - 1) - x % U64

/-- Read one byte cell of an arena. -/
def byteAt (m : Nat → Nat) (i : Nat) : Nat := m i % 256

/-- Write one byte cell of an arena, as the Go assignment vm.MM[a] = c. -/
def setByte (m : Nat → Nat) (a c : Nat) : Nat → Nat :=
  fun x => if x = a then c % 256 else m x

/-- The machine state: VMContext from the source. -/
structure VMContext where
  MM : Nat → Nat
  BM : Nat → Nat
  SM : Nat → Nat
  PC : Nat
  FP : Nat
  SP : Nat
  Status : Nat

def VMS_ILLEGAL : Nat := 0
def VMS_HALT : Nat := 1
def VMS_RUNNING : Nat := 2
def VMS_ECALL : Nat := 3

def OP_HALT : Nat := 0x01
def OP_ECALL : Nat := 0x02
def OP_CALL : Nat := 0x04
def OP_RETURN : Nat := 0x05
def OP_JUMP : Nat := 0x08
def OP_BRANCH : Nat := 0x09
def OP_PUSH : Nat := 0x0c
def OP_POP : Nat := 0x0d
def OP_ASSIGN : Nat := 0x0e
def OP_ADD : Nat := 0x40
def OP_SUB : Nat := 0x41
def OP_AND : Nat := 0x44
def OP_OR : Nat := 0x45
def OP_XOR : Nat := 0x46
def OP_SHL : Nat := 0x48
def OP_SHR : Nat := 0x49
def OP_MUL : Nat := 0x4c
def OP_QUO : Nat := 0x4d
def OP_REM : Nat := 0x4e
def OP_EQL : Nat := 0x50
def OP_NEQ : Nat := 0x51
def OP_LSS : Nat := 0x52
def OP_GTR : Nat := 0x53
def OP_LEQ : Nat := 0x54
def OP_GEQ : Nat := 0x55
def OP_CONVERT : Nat := 0x58
def OP_LOAD : Nat := 0x20
def OP_STORE : Nat := 0x21
def OP_STORE_STRING : Nat := 0x22

/-- VMValR from the source: read s bytes little-endian.  The Go function
receives the slice vm.XX[off:]; the model passes the arena together with
the offset. -/
def VMValR (b : Nat → Nat) (off : Nat) : Nat → Nat
  | 0 => 0
  | s + 1 => VMValR b off s ||| shl64 (byteAt b (off + s)) (8 * s)

/-- VMValW from the source: write the low s bytes of v little-endian at
off.  Go mutates the slice in place; the model returns the updated
arena. -/
def VMValW (b : Nat → Nat) (off s v : Nat) : Nat → Nat :=
  fun x => if off ≤ x ∧ x < off + s then shr64 v (8 * (x - off)) % 256 else b x

/-- VMValInfoIsValid from the source. -/
def VMValInfoIsValid (b : Nat) : Bool :=
  if (b &&& 0b11000000) ≠ 0 then false
  else
    let s := b &&& 0b1111
    (s == 1 || s == 2 || s == 4 || s == 8)

/-- VMValInfoSize from the source. -/
def VMValInfoSize (b : Nat) : Nat := b &&& 0b1111

/-- VMValInfoIsSigned from the source. -/
def VMValInfoIsSigned (b : Nat) : Bool := (b &&& 0b10000) == 0b10000

/-- VMValInfoIsIndirect from the source. -/
def VMValInfoIsIndirect (b : Nat) : Bool := (b &&& 0b100000) == 0b100000

/-- VMValSignBit from the source; the mask is 1 shifted by s*8-1 in
wrapping uint64 arithmetic. -/
def VMValSignBit (v s : Nat) : Nat :=
  if v &&& shl64 1 (sub64 (s * 8) 1) = shl64 1 (sub64 (s * 8) 1) then 1 else 0

/-- VMValPop from the source: indirect descriptors pop an 8-byte offset
and load frame-relative, direct descriptors consume from the stack top. -/
def VMValPop (vm : VMContext) (valInfo : Nat) : VMContext × Nat :=
  if VMValInfoIsIndirect valInfo then
    let va := VMValR vm.SM (sub64 vm.SP 8) 8
    let vm1 : VMContext := { vm with SP := sub64 vm.SP 8 }
    (vm1, VMValR vm1.SM (add64 vm1.FP va) (VMValInfoSize valInfo))
  else
    let v := VMValR vm.SM (sub64 vm.SP (VMValInfoSize valInfo)) (VMValInfoSize valInfo)
    ({ vm with SP := sub64 vm.SP (VMValInfoSize valInfo) }, v)

/-- Result of one interpreter step: either the successor state, or the
fatal stop performed by PrintErrorAndExit, carrying the message and the
machine state at the moment the process exits. -/
inductive StepResult where
  | ok : VMContext → StepResult
  | err : String → VMContext → StepResult

/-- The copy loop of OP_STORE_STRING.  The fuel bounds the iteration at
the size of the bytecode arena, where the Go loop would fault on an
out-of-range index; within the fuel the loop copies bytes until a zero
byte appears in the instruction stream, returning the state and the loop
counter. -/
def storeCopy : Nat → VMContext → Nat → Nat → VMContext × Option Nat
  | 0, vm, _, _ => (vm, none)
  | fuel + 1, vm, vj, i =>
    if byteAt vm.BM (add64 (add64 vm.PC i) 1) ≠ 0 then
      storeCopy fuel
        { vm with MM := setByte vm.MM (add64 vj i) (byteAt vm.BM (add64 (add64 vm.PC i) 1)) }
        vj (add64 i 1)
    else (vm, some i)

/-- The OP_HALT case of the VMTick switch. -/
def execHALT (vm : VMContext) : StepResult :=
  .ok { vm with Status := VMS_HALT, PC := add64 vm.PC 1 }

/-- The OP_ECALL case of the VMTick switch. -/
def execECALL (vm : VMContext) : StepResult :=
  .ok { vm with Status := VMS_ECALL, PC := add64 vm.PC 1 }

/-- The OP_CALL case of the VMTick switch: pop the 8-byte jump offset,
push the frame pointer and the return pc, enter the new frame. -/
def execCALL (vm : VMContext) : StepResult :=
  let va := VMValR vm.SM (sub64 vm.SP 8) 8
  let sp1 := sub64 vm.SP 8
  let sm1 := VMValW vm.SM sp1 8 vm.FP
  let sp2 := add64 sp1 8
  let sm2 := VMValW sm1 sp2 8 (add64 vm.PC 1)
  let sp3 := add64 sp2 8
  .ok { vm with SM := sm2, SP := sp3, FP := sp3, PC := add64 vm.PC va }

/-- The OP_RETURN case of the VMTick switch. -/
def execRETURN (vm : VMContext) : StepResult :=
  let va := VMValR vm.SM (sub64 vm.SP 8) 8
  let vm1 : VMContext := { vm with SP := sub64 vm.SP 8 }
  let vx := VMValR vm1.SM (sub64 vm1.FP 8) 8
  let vy := VMValR vm1.SM (sub64 vm1.FP 16) 8
  let b1 := byteAt vm1.BM (add64 vm1.PC 1)
  if b1 = 0 then
    .ok { vm1 with SP := add64 va vm1.FP, PC := vx, FP := vy }
  else if ! VMValInfoIsValid b1 then .err "Invalid instruction!" vm1
  else
    let p := VMValPop vm1 b1
    let sp := add64 va p.1.FP
    .ok { p.1 with
      SM := VMValW p.1.SM sp (VMValInfoSize b1) p.2,
      SP := add64 sp (VMValInfoSize b1), PC := vx, FP := vy }

/-- The OP_JUMP case of the VMTick switch. -/
def execJUMP (vm : VMContext) : StepResult :=
  let va := VMValR vm.SM (sub64 vm.SP 8) 8
  .ok { vm with SP := sub64 vm.SP 8, PC := add64 vm.PC va }

/-- The OP_BRANCH case of the VMTick switch. -/
def execBRANCH (vm : VMContext) : StepResult :=
  let b1 := byteAt vm.BM (add64 vm.PC 1)
  if ! VMValInfoIsValid b1 then .err "Invalid instruction!" vm
  else
    let va := VMValR vm.SM (sub64 vm.SP 8) 8
    let vm1 : VMContext := { vm with SP := sub64 vm.SP 8 }
    let p := VMValPop vm1 b1
    if p.2 = 0 then .ok { p.1 with PC := add64 vm.PC va }
    else .ok { p.1 with PC := add64 vm.PC 2 }

/-- The OP_PUSH case of the VMTick switch: only valid direct descriptors
are accepted; the immediate literal is read from the instruction
stream. -/
def execPUSH (vm : VMContext) : StepResult :=
  let b1 := byteAt vm.BM (add64 vm.PC 1)
  if ! VMValInfoIsValid b1 then .err "Invalid instruction!" vm
  else if VMValInfoIsIndirect b1 then .err "Invalid instruction!" vm
  else
    .ok { vm with
      SM := VMValW vm.SM vm.SP (VMValInfoSize b1)
        (VMValR vm.BM (add64 vm.PC 2) (VMValInfoSize b1)),
      SP := add64 vm.SP (VMValInfoSize b1),
      PC := add64 vm.PC (2 + VMValInfoSize b1) }

/-- The OP_POP case of the VMTick switch. -/
def execPOP (vm : VMContext) : StepResult :=
  let b1 := byteAt vm.BM (add64 vm.PC 1)
  if ! VMValInfoIsValid b1 then .err "Invalid instruction!" vm
  else if VMValInfoIsIndirect b1 then .err "Invalid instruction!" vm
  else
    .ok { vm with SP := sub64 vm.SP (VMValInfoSize b1), PC := add64 vm.PC 2 }

/-- The OP_ASSIGN case of the VMTick switch. -/
def execASSIGN (vm : VMContext) : StepResult :=
  let b1 := byteAt vm.BM (add64 vm.PC 1)
  let b2 := byteAt vm.BM (add64 vm.PC 2)
  if ! (VMValInfoIsValid b1 && VMValInfoIsValid b2) then .err "Invalid instruction!" vm
  else if (b1 &&& 0b11111) ≠ (b2 &&& 0b11111) then .err "Invalid instruction!" vm
  else if ! VMValInfoIsIndirect b1 then .err "Invalid instruction!" vm
  else
    let pk := VMValPop vm b2
    let va := VMValR pk.1.SM (sub64 pk.1.SP 8) 8
    let vm2 : VMContext := { pk.1 with SP := sub64 pk.1.SP 8 }
    .ok { vm2 with
      SM := VMValW vm2.SM (add64 vm2.FP va) (VMValInfoSize b2) pk.2,
      PC := add64 vm.PC 3 }

/-- The OP_ADD case of the VMTick switch. -/
def execADD (vm : VMContext) : StepResult :=
  let b1 := byteAt vm.BM (add64 vm.PC 1)
  let b2 := byteAt vm.BM (add64 vm.PC 2)
  if ! (VMValInfoIsValid b1 && VMValInfoIsValid b2) then .err "Invalid instruction!" vm
  else if (b1 &&& 0b11111) ≠ (b2 &&& 0b11111) then .err "Invalid instruction!" vm
  else
    let p2 := VMValPop vm b2
    let p1 := VMValPop p2.1 b1
    .ok { p1.1 with
      SM := VMValW p1.1.SM p1.1.SP (VMValInfoSize b1) (add64 p1.2 p2.2),
      SP := add64 p1.1.SP (VMValInfoSize b1), PC := add64 vm.PC 3 }

/-- The OP_SUB case of the VMTick switch: two's-complement negate then
add. -/
def execSUB (vm : VMContext) : StepResult :=
  let b1 := byteAt vm.BM (add64 vm.PC 1)
  let b2 := byteAt vm.BM (add64 vm.PC 2)
  if ! (VMValInfoIsValid b1 && VMValInfoIsValid b2) then .err "Invalid instruction!" vm
  else if (b1 &&& 0b11111) ≠ (b2 &&& 0b11111) then .err "Invalid instruction!" vm
  else
    let p2 := VMValPop vm b2
    let p1 := VMValPop p2.1 b1
    .ok { p1.1 with
      SM := VMValW p1.1.SM p1.1.SP (VMValInfoSize b1)
        (add64 p1.2 (add64 (not64 p2.2) 1)),
      SP := add64 p1.1.SP (VMValInfoSize b1), PC := add64 vm.PC 3 }

/-- The OP_AND case of the VMTick switch. -/
def execAND (vm : VMContext) : StepResult :=
  let b1 := byteAt vm.BM (add64 vm.PC 1)
  let b2 := byteAt vm.BM (add64 vm.PC 2)
  if ! (VMValInfoIsValid b1 && VMValInfoIsValid b2) then .err "Invalid instruction!" vm
  else if (b1 &&& 0b11111) ≠ (b2 &&& 0b11111) then .err "Invalid instruction!" vm
  else
    let p2 := VMValPop vm b2
    let p1 := VMValPop p2.1 b1
    .ok { p1.1 with
      SM := VMValW p1.1.SM p1.1.SP (VMValInfoSize b1) (p1.2 &&& p2.2),
      SP := add64 p1.1.SP (VMValInfoSize b1), PC := add64 vm.PC 3 }

/-- The OP_OR case of the VMTick switch. -/
def execOR (vm : VMContext) : StepResult :=
  let b1 := byteAt vm.BM (add64 vm.PC 1)
  let b2 := byteAt vm.BM (add64 vm.PC 2)
  if ! (VMValInfoIsValid b1 && VMValInfoIsValid b2) then .err "Invalid instruction!" vm
  else if (b1 &&& 0b11111) ≠ (b2 &&& 0b11111) then .err "Invalid instruction!" vm
  else
    let p2 := VMValPop vm b2
    let p1 := VMValPop p2.1 b1
    .ok { p1.1 with
      SM := VMValW p1.1.SM p1.1.SP (VMValInfoSize b1) (p1.2 ||| p2.2),
      SP := add64 p1.1.SP (VMValInfoSize b1), PC := add64 vm.PC 3 }

/-- The OP_XOR case of the VMTick switch. -/
def execXOR (vm : VMContext) : StepResult :=
  let b1 := byteAt vm.BM (add64 vm.PC 1)
  let b2 := byteAt vm.BM (add64 vm.PC 2)
  if ! (VMValInfoIsValid b1 && VMValInfoIsValid b2) then .err "Invalid instruction!" vm
  else if (b1 &&& 0b11111) ≠ (b2 &&& 0b11111) then .err "Invalid instruction!" vm
  else
    let p2 := VMValPop vm b2
    let p1 := VMValPop p2.1 b1
    .ok { p1.1 with
      SM := VMValW p1.1.SM p1.1.SP (VMValInfoSize b1) (p1.2 ^^^ p2.2),
      SP := add64 p1.1.SP (VMValInfoSize b1), PC := add64 vm.PC 3 }

/-- The OP_SHL case of the VMTick switch: both descriptors must be valid
but need not match; a signed negative count is fatal. -/
def execSHL (vm : VMContext) : StepResult :=
  let b1 := byteAt vm.BM (add64 vm.PC 1)
  let b2 := byteAt vm.BM (add64 vm.PC 2)
  if ! (VMValInfoIsValid b1 && VMValInfoIsValid b2) then .err "Invalid instruction!" vm
  else
    let p2 := VMValPop vm b2
    let p1 := VMValPop p2.1 b1
    if VMValInfoIsSigned b2 && (VMValSignBit p2.2 (VMValInfoSize b2) == 1) then
      .err "Negative shift count!" p1.1
    else
      .ok { p1.1 with
        SM := VMValW p1.1.SM p1.1.SP (VMValInfoSize b1) (shl64 p1.2 p2.2),
        SP := add64 p1.1.SP (VMValInfoSize b1), PC := add64 vm.PC 3 }

/-- The OP_SHR case of the VMTick switch: arithmetic shift for signed
negative left operands, saturating to all-ones when the count exceeds
the byte width. -/
def execSHR (vm : VMContext) : StepResult :=
  let b1 := byteAt vm.BM (add64 vm.PC 1)
  let b2 := byteAt vm.BM (add64 vm.PC 2)
  if ! (VMValInfoIsValid b1 && VMValInfoIsValid b2) then .err "Invalid instruction!" vm
  else
    let p2 := VMValPop vm b2
    let p1 := VMValPop p2.1 b1
    if VMValInfoIsSigned b2 && (VMValSignBit p2.2 (VMValInfoSize b2) == 1) then
      .err "Negative shift count!" p1.1
    else
      let vl :=
        if VMValInfoIsSigned b1 && (VMValSignBit p1.2 (VMValInfoSize b1) == 1) then
          if p2.2 > VMValInfoSize b1 then not64 0
          else shr64 p1.2 p2.2 ||| shl64 (not64 0) (sub64 (VMValInfoSize b1 * 8) p2.2)
        else shr64 p1.2 p2.2
      .ok { p1.1 with
        SM := VMValW p1.1.SM p1.1.SP (VMValInfoSize b1) vl,
        SP := add64 p1.1.SP (VMValInfoSize b1), PC := add64 vm.PC 3 }

/-- The OP_MUL case of the VMTick switch. -/
def execMUL (vm : VMContext) : StepResult :=
  let b1 := byteAt vm.BM (add64 vm.PC 1)
  let b2 := byteAt vm.BM (add64 vm.PC 2)
  if ! (VMValInfoIsValid b1 && VMValInfoIsValid b2) then .err "Invalid instruction!" vm
  else if (b1 &&& 0b11111) ≠ (b2 &&& 0b11111) then .err "Invalid instruction!" vm
  else
    let p2 := VMValPop vm b2
    let p1 := VMValPop p2.1 b1
    .ok { p1.1 with
      SM := VMValW p1.1.SM p1.1.SP (VMValInfoSize b1) (p1.2 * p2.2 % U64),
      SP := add64 p1.1.SP (VMValInfoSize b1), PC := add64 vm.PC 3 }

/-- The OP_EQL case of the VMTick switch: pushes a single result byte. -/
def execEQL (vm : VMContext) : StepResult :=
  let b1 := byteAt vm.BM (add64 vm.PC 1)
  let b2 := byteAt vm.BM (add64 vm.PC 2)
  if ! (VMValInfoIsValid b1 && VMValInfoIsValid b2) then .err "Invalid instruction!" vm
  else if (b1 &&& 0b11111) ≠ (b2 &&& 0b11111) then .err "Invalid instruction!" vm
  else
    let p2 := VMValPop vm b2
    let p1 := VMValPop p2.1 b1
    let vl := if p1.2 = p2.2 then 1 else 0
    .ok { p1.1 with
      SM := VMValW p1.1.SM p1.1.SP 1 vl,
      SP := add64 p1.1.SP 1, PC := add64 vm.PC 3 }

/-- The OP_NEQ case of the VMTick switch. -/
def execNEQ (vm : VMContext) : StepResult :=
  let b1 := byteAt vm.BM (add64 vm.PC 1)
  let b2 := byteAt vm.BM (add64 vm.PC 2)
  if ! (VMValInfoIsValid b1 && VMValInfoIsValid b2) then .err "Invalid instruction!" vm
  else if (b1 &&& 0b11111) ≠ (b2 &&& 0b11111) then .err "Invalid instruction!" vm
  else
    let p2 := VMValPop vm b2
    let p1 := VMValPop p2.1 b1
    let vl := if p1.2 ≠ p2.2 then 1 else 0
    .ok { p1.1 with
      SM := VMValW p1.1.SM p1.1.SP 1 vl,
      SP := add64 p1.1.SP 1, PC := add64 vm.PC 3 }

/-- The OP_LSS case of the VMTick switch: sign-bit-first ordering when
the left descriptor is signed. -/
def execLSS (vm : VMContext) : StepResult :=
  let b1 := byteAt vm.BM (add64 vm.PC 1)
  let b2 := byteAt vm.BM (add64 vm.PC 2)
  if ! (VMValInfoIsValid b1 && VMValInfoIsValid b2) then .err "Invalid instruction!" vm
  else if (b1 &&& 0b11111) ≠ (b2 &&& 0b11111) then .err "Invalid instruction!" vm
  else
    let p2 := VMValPop vm b2
    let p1 := VMValPop p2.1 b1
    let vl :=
      if VMValInfoIsSigned b1 then
        let vjs := VMValSignBit p1.2 (VMValInfoSize b1) = 1
        let vks := VMValSignBit p2.2 (VMValInfoSize b2) = 1
        if vjs ∧ ¬ vks then 1
        else if ¬ vjs ∧ vks then 0
        else if p1.2 < p2.2 then 1 else 0
      else if p1.2 < p2.2 then 1 else 0
    .ok { p1.1 with
      SM := VMValW p1.1.SM p1.1.SP 1 vl,
      SP := add64 p1.1.SP 1, PC := add64 vm.PC 3 }

/-- The OP_GTR case of the VMTick switch. -/
def execGTR (vm : VMContext) : StepResult :=
  let b1 := byteAt vm.BM (add64 vm.PC 1)
  let b2 := byteAt vm.BM (add64 vm.PC 2)
  if ! (VMValInfoIsValid b1 && VMValInfoIsValid b2) then .err "Invalid instruction!" vm
  else if (b1 &&& 0b11111) ≠ (b2 &&& 0b11111) then .err "Invalid instruction!" vm
  else
    let p2 := VMValPop vm b2
    let p1 := VMValPop p2.1 b1
    let vl :=
      if VMValInfoIsSigned b1 then
        let vjs := VMValSignBit p1.2 (VMValInfoSize b1) = 1
        let vks := VMValSignBit p2.2 (VMValInfoSize b2) = 1
        if vjs ∧ ¬ vks then 0
        else if ¬ vjs ∧ vks then 1
        else if p1.2 > p2.2 then 1 else 0
      else if p1.2 > p2.2 then 1 else 0
    .ok { p1.1 with
      SM := VMValW p1.1.SM p1.1.SP 1 vl,
      SP := add64 p1.1.SP 1, PC := add64 vm.PC 3 }

/-- The OP_LEQ case of the VMTick switch. -/
def execLEQ (vm : VMContext) : StepResult :=
  let b1 := byteAt vm.BM (add64 vm.PC 1)
  let b2 := byteAt vm.BM (add64 vm.PC 2)
  if ! (VMValInfoIsValid b1 && VMValInfoIsValid b2) then .err "Invalid instruction!" vm
  else if (b1 &&& 0b11111) ≠ (b2 &&& 0b11111) then .err "Invalid instruction!" vm
  else
    let p2 := VMValPop vm b2
    let p1 := VMValPop p2.1 b1
    let vl :=
      if VMValInfoIsSigned b1 then
        let vjs := VMValSignBit p1.2 (VMValInfoSize b1) = 1
        let vks := VMValSignBit p2.2 (VMValInfoSize b2) = 1
        if vjs ∧ ¬ vks then 1
        else if ¬ vjs ∧ vks then 0
        else if p1.2 ≤ p2.2 then 1 else 0
      else if p1.2 ≤ p2.2 then 1 else 0
    .ok { p1.1 with
      SM := VMValW p1.1.SM p1.1.SP 1 vl,
      SP := add64 p1.1.SP 1, PC := add64 vm.PC 3 }

/-- The OP_GEQ case of the VMTick switch. -/
def execGEQ (vm : VMContext) : StepResult :=
  let b1 := byteAt vm.BM (add64 vm.PC 1)
  let b2 := byteAt vm.BM (add64 vm.PC 2)
  if ! (VMValInfoIsValid b1 && VMValInfoIsValid b2) then .err "Invalid instruction!" vm
  else if (b1 &&& 0b11111) ≠ (b2 &&& 0b11111) then .err "Invalid instruction!" vm
  else
    let p2 := VMValPop vm b2
    let p1 := VMValPop p2.1 b1
    let vl :=
      if VMValInfoIsSigned b1 then
        let vjs := VMValSignBit p1.2 (VMValInfoSize b1) = 1
        let vks := VMValSignBit p2.2 (VMValInfoSize b2) = 1
        if vjs ∧ ¬ vks then 0
        else if ¬ vjs ∧ vks then 1
        else if p1.2 ≥ p2.2 then 1 else 0
      else if p1.2 ≥ p2.2 then 1 else 0
    .ok { p1.1 with
      SM := VMValW p1.1.SM p1.1.SP 1 vl,
      SP := add64 p1.1.SP 1, PC := add64 vm.PC 3 }

/-- The OP_CONVERT case of the VMTick switch: sign-extends signed
negative values to 64 bits, then writes the target width. -/
def execCONVERT (vm : VMContext) : StepResult :=
  let b1 := byteAt vm.BM (add64 vm.PC 1)
  let b2 := byteAt vm.BM (add64 vm.PC 2)
  if ! (VMValInfoIsValid b1 && VMValInfoIsValid b2) then .err "Invalid instruction!" vm
  else if VMValInfoIsIndirect b2 then .err "Invalid instruction!" vm
  else
    let p1 := VMValPop vm b1
    let vj :=
      if VMValInfoIsSigned b1 && (VMValSignBit p1.2 (VMValInfoSize b1) == 1) then
        p1.2 ||| shl64 (not64 0) (VMValInfoSize b1 * 8)
      else p1.2
    .ok { p1.1 with
      SM := VMValW p1.1.SM p1.1.SP (VMValInfoSize b2) vj,
      SP := add64 p1.1.SP (VMValInfoSize b2), PC := add64 vm.PC 3 }

/-- The OP_STORE_STRING case of the VMTick switch: the target address is
popped through a hardcoded 8-byte indirect descriptor and must carry the
0x3 device-window tag in bits 20 and up. -/
def execSTORE_STRING (vm : VMContext) : StepResult :=
  let b1 := 0b101000
  let p := VMValPop vm b1
  if shr64 p.2 20 ≠ 0x3 then .err "Invalid memory address!" p.1
  else
    let q := storeCopy 0x1000000 p.1 p.2 0
    match q.2 with
    | none => .err "Arena bound exceeded!" q.1
    | some i =>
      .ok { q.1 with
        MM := setByte q.1.MM (add64 p.2 i) 0,
        PC := add64 (add64 q.1.PC i) 2 }

/-- The switch of VMTick from the source, with the fetched opcode byte as
a parameter; unknown opcodes are fatal, reserved opcodes report as not
implemented. -/
def VMTickOp (vm : VMContext) (op : Nat) : StepResult :=
  if op = OP_HALT then execHALT vm
  else if op = OP_ECALL then execECALL vm
  else if op = OP_CALL then execCALL vm
  else if op = OP_RETURN then execRETURN vm
  else if op = OP_JUMP then execJUMP vm
  else if op = OP_BRANCH then execBRANCH vm
  else if op = OP_PUSH then execPUSH vm
  else if op = OP_POP then execPOP vm
  else if op = OP_ASSIGN then execASSIGN vm
  else if op = OP_ADD then execADD vm
  else if op = OP_SUB then execSUB vm
  else if op = OP_AND then execAND vm
  else if op = OP_OR then execOR vm
  else if op = OP_XOR then execXOR vm
  else if op = OP_SHL then execSHL vm
  else if op = OP_SHR then execSHR vm
  else if op = OP_MUL then execMUL vm
  else if op = OP_QUO then .err "Instruction has not been implemented!" vm
  else if op = OP_REM then .err "Instruction has not been implemented!" vm
  else if op = OP_EQL then execEQL vm
  else if op = OP_NEQ then execNEQ vm
  else if op = OP_LSS then execLSS vm
  else if op = OP_GTR then execGTR vm
  else if op = OP_LEQ then execLEQ vm
  else if op = OP_GEQ then execGEQ vm
  else if op = OP_CONVERT then execCONVERT vm
  else if op = OP_LOAD then .err "Instruction has not been implemented!" vm
  else if op = OP_STORE then .err "Instruction has not been implemented!" vm
  else if op = OP_STORE_STRING then execSTORE_STRING vm
  else .err "Invalid instruction!" vm

/-- VMTick from the source: one fetch/decode/execute step. -/
def VMTick (vm : VMContext) : StepResult :=
  VMTickOp vm (byteAt vm.BM vm.PC)

/-- VMInit from the source: zero-filled arenas, zero registers, running
status; the bytecode is copied into the instruction arena and oversized
programs are rejected. -/
def VMInit (bytecode : List Nat) : Option VMContext :=
  if bytecode.length > 0x1000000 then none
  else some {
    MM := fun _ => 0
    BM := fun i => (bytecode.getD i 0) % 256
    SM := fun _ => 0
    PC := 0, FP := 0, SP := 0
    Status := VMS_RUNNING }

/-- The machine state a step result carries: the successor state on
success, the state at process exit on a fatal stop. -/
def resState : StepResult → VMContext
  | .ok vm => vm
  | .err _ vm => vm

/-- Whether a step result is a successful step. -/
def isOk : StepResult → Bool
  | .ok _ => true
  | .err _ _ => false

/-- Sequencing of steps: a fatal stop propagates, as the process has
exited. -/
def stepBind : StepResult → (VMContext → StepResult) → StepResult
  | .ok vm, f => f vm
  | .err e vm, _ => .err e vm

/-- n consecutive interpreter steps. -/
def stepN : Nat → VMContext → StepResult
  | 0, vm => .ok vm
  | n + 1, vm => stepBind (VMTick vm) (stepN n)

/-- The byte just below the stack pointer after a successful step: the
result byte a comparison instruction pushes. -/
def pushedByte (vm : VMContext) : Option Nat :=
  match VMTick vm with
  | .ok v => some (byteAt v.SM (sub64 v.SP 1))
  | .err _ _ => none

/-! ### Arithmetic facts about the wrapping uint64 operations -/

theorem U64_pos : 0 < U64 := by norm_num [U64]

theorem add64_lt (a b : Nat) : add64 a b < U64 := Nat.mod_lt _ U64_pos

theorem sub64_lt (a b : Nat) : sub64 a b < U64 := Nat.mod_lt _ U64_pos

theorem add64_eq {a b : Nat} (h : a + b < U64) : add64 a b = a + b :=
  Nat.mod_eq_of_lt h

theorem sub64_eq {a b : Nat} (hb : b ≤ a) (ha : a < U64) : sub64 a b = a - b := by
  unfold sub64
  have hbU : b < U64 := lt_of_le_of_lt hb ha
  rw [Nat.mod_eq_of_lt hbU]
  have h1 : U64 - b + a = U64 + (a - b) := by omega
  rw [h1, Nat.add_mod_left, Nat.mod_eq_of_lt (by omega)]

theorem shr64_small {k : Nat} (v : Nat) (h : k < 64) : shr64 v k = v >>> k := by
  simp [shr64, h]

/-! ### Reading back little-endian writes -/

theorem byte_merge (v s : Nat) :
    (v % 2 ^ (8 * s)) ||| (((v >>> (8 * s)) % 256) <<< (8 * s)) = v % 2 ^ (8 * (s + 1)) := by
  apply Nat.eq_of_testBit_eq
  intro j
  have h256 : (256 : Nat) = 2 ^ 8 := by norm_num
  rw [h256]
  simp only [Nat.testBit_lor, Nat.testBit_mod_two_pow, Nat.testBit_shiftLeft,
    Nat.testBit_shiftRight]
  by_cases h1 : j < 8 * s
  · have h2 : j < 8 * (s + 1) := by omega
    have h3 : ¬ (j ≥ 8 * s) := by omega
    simp [h1, h2, h3]
  · by_cases h2 : j < 8 * (s + 1)
    · have h3 : j ≥ 8 * s := by omega
      have h4 : j - 8 * s < 8 := by omega
      have h5 : 8 * s + (j - 8 * s) = j := by omega
      simp [h1, h2, h3, h4, h5]
    · have h3 : ¬ (j - 8 * s < 8) := by omega
      simp [h1, h2, h3]

theorem VMValR_bytes (m : Nat → Nat) (off v : Nat) :
    ∀ s : Nat, s ≤ 8 → (∀ i, i < s → m (off + i) % 256 = (v >>> (8 * i)) % 256) →
      VMValR m off s = v % 2 ^ (8 * s)
  | 0, _, _ => by simp [VMValR, Nat.mod_one]
  | s + 1, hs, hb => by
    rw [VMValR]
    have ih := VMValR_bytes m off v s (by omega) (fun i hi => hb i (by omega))
    rw [ih]
    have hbyte : byteAt m (off + s) = (v >>> (8 * s)) % 256 := by
      unfold byteAt
      exact hb s (by omega)
    rw [hbyte]
    have hp : 0 < 2 ^ (8 * s) := Nat.pos_pow_of_pos _ (by norm_num)
    have hlt : ((v >>> (8 * s)) % 256) <<< (8 * s) < U64 := by
      have h1 : (v >>> (8 * s)) % 256 < 256 := Nat.mod_lt _ (by norm_num)
      rw [Nat.shiftLeft_eq]
      calc ((v >>> (8 * s)) % 256) * 2 ^ (8 * s) < 256 * 2 ^ (8 * s) :=
            mul_lt_mul_of_pos_right h1 hp
        _ ≤ 256 * 2 ^ 56 := by
            have h2 : 2 ^ (8 * s) ≤ 2 ^ 56 := Nat.pow_le_pow_right (by norm_num) (by omega)
            omega
        _ ≤ U64 := by norm_num [U64]
    have hsh : shl64 ((v >>> (8 * s)) % 256) (8 * s) = ((v >>> (8 * s)) % 256) <<< (8 * s) := by
      simp only [shl64, if_pos (show 8 * s < 64 by omega)]
      exact Nat.mod_eq_of_lt hlt
    rw [hsh]
    exact byte_merge v s

theorem VMValW_inside (m : Nat → Nat) (off s v x : Nat) (h1 : off ≤ x) (h2 : x < off + s) :
    VMValW m off s v x = shr64 v (8 * (x - off)) % 256 := by
  simp [VMValW, h1, h2]

theorem VMValW_outside (m : Nat → Nat) (off s v x : Nat) (h : x < off ∨ off + s ≤ x) :
    VMValW m off s v x = m x := by
  unfold VMValW
  rw [if_neg]
  omega

theorem VMValR_writeback (m : Nat → Nat) (off s v : Nat) (hs : s ≤ 8) :
    VMValR (VMValW m off s v) off s = v % 2 ^ (8 * s) := by
  apply VMValR_bytes _ _ v s hs
  intro i hi
  rw [VMValW_inside m off s v (off + i) (by omega) (by omega)]
  have h0 : off + i - off = i := by omega
  rw [h0, shr64_small v (by omega)]
  exact Nat.mod_mod_of_dvd _ dvd_rfl

theorem VMValR_congr (m1 m2 : Nat → Nat) (off1 off2 : Nat) :
    ∀ s : Nat, (∀ i, i < s → m1 (off1 + i) = m2 (off2 + i)) →
      VMValR m1 off1 s = VMValR m2 off2 s
  | 0, _ => by simp [VMValR]
  | s + 1, h => by
    rw [VMValR, VMValR, VMValR_congr m1 m2 off1 off2 s (fun i hi => h i (by omega))]
    unfold byteAt
    rw [h s (by omega)]

theorem VMValR_write_disjoint (m : Nat → Nat) (off1 s1 v off2 s2 : Nat)
    (h : off2 + s2 ≤ off1 ∨ off1 + s1 ≤ off2) :
    VMValR (VMValW m off1 s1 v) off2 s2 = VMValR m off2 s2 := by
  apply VMValR_congr
  intro i hi
  apply VMValW_outside
  omega

/-! ### Characterizations of the pop primitive and the copy loop -/

theorem VMValPop_direct (vm : VMContext) (b : Nat) (h : VMValInfoIsIndirect b = false) :
    VMValPop vm b =
      ({ vm with SP := sub64 vm.SP (VMValInfoSize b) },
        VMValR vm.SM (sub64 vm.SP (VMValInfoSize b)) (VMValInfoSize b)) := by
  unfold VMValPop
  rw [h]
  rfl

theorem VMValPop_indirect (vm : VMContext) (b : Nat) (h : VMValInfoIsIndirect b = true) :
    VMValPop vm b =
      ({ vm with SP := sub64 vm.SP 8 },
        VMValR vm.SM (add64 vm.FP (VMValR vm.SM (sub64 vm.SP 8) 8)) (VMValInfoSize b)) := by
  unfold VMValPop
  rw [h]
  rfl

theorem VMValPop_fst (vm : VMContext) (b : Nat) :
    (VMValPop vm b).1 =
      { vm with SP := if VMValInfoIsIndirect b then sub64 vm.SP 8
                      else sub64 vm.SP (VMValInfoSize b) } := by
  unfold VMValPop
  by_cases h : VMValInfoIsIndirect b = true
  · rw [h]
    simp
  · rw [Bool.eq_false_iff.mpr h]
    simp

theorem storeCopy_fst (vj : Nat) :
    ∀ (fuel : Nat) (vm : VMContext) (i : Nat), ∃ mm,
      (storeCopy fuel vm vj i).1 = { vm with MM := mm }
  | 0, vm, i => ⟨vm.MM, rfl⟩
  | fuel + 1, vm, i => by
    rw [storeCopy]
    by_cases h : byteAt vm.BM (add64 (add64 vm.PC i) 1) ≠ 0
    · rw [if_pos h]
      exact storeCopy_fst vj fuel _ (add64 i 1)
    · rw [if_neg h]
      exact ⟨vm.MM, rfl⟩

theorem storeCopy_BM (fuel : Nat) (vm : VMContext) (vj i : Nat) :
    ((storeCopy fuel vm vj i).1).BM = vm.BM := by
  obtain ⟨mm, h⟩ := storeCopy_fst vj fuel vm i
  rw [h]

theorem storeCopy_Status (fuel : Nat) (vm : VMContext) (vj i : Nat) :
    ((storeCopy fuel vm vj i).1).Status = vm.Status := by
  obtain ⟨mm, h⟩ := storeCopy_fst vj fuel vm i
  rw [h]

/-! ### The instruction arena is read-only during execution -/

theorem execHALT_BM (vm : VMContext) : (resState (execHALT vm)).BM = vm.BM := rfl

theorem execECALL_BM (vm : VMContext) : (resState (execECALL vm)).BM = vm.BM := rfl

theorem execCALL_BM (vm : VMContext) : (resState (execCALL vm)).BM = vm.BM := rfl

theorem execRETURN_BM (vm : VMContext) : (resState (execRETURN vm)).BM = vm.BM := by
  unfold execRETURN
  dsimp only
  split_ifs <;> simp [resState, VMValPop_fst]

theorem execJUMP_BM (vm : VMContext) : (resState (execJUMP vm)).BM = vm.BM := rfl

theorem execCALL_Status (vm : VMContext) : (resState (execCALL vm)).Status = vm.Status := rfl

theorem execJUMP_Status (vm : VMContext) : (resState (execJUMP vm)).Status = vm.Status := rfl

theorem execBRANCH_BM (vm : VMContext) : (resState (execBRANCH vm)).BM = vm.BM := by
  unfold execBRANCH
  dsimp only
  split_ifs <;> simp [resState, VMValPop_fst]

theorem execPUSH_BM (vm : VMContext) : (resState (execPUSH vm)).BM = vm.BM := by
  unfold execPUSH
  dsimp only
  split_ifs <;> simp [resState]

theorem execPOP_BM (vm : VMContext) : (resState (execPOP vm)).BM = vm.BM := by
  unfold execPOP
  dsimp only
  split_ifs <;> simp [resState]

theorem execASSIGN_BM (vm : VMContext) : (resState (execASSIGN vm)).BM = vm.BM := by
  unfold execASSIGN
  dsimp only
  split_ifs <;> simp [resState, VMValPop_fst]

theorem execADD_BM (vm : VMContext) : (resState (execADD vm)).BM = vm.BM := by
  unfold execADD
  dsimp only
  split_ifs <;> simp [resState, VMValPop_fst]

theorem execSUB_BM (vm : VMContext) : (resState (execSUB vm)).BM = vm.BM := by
  unfold execSUB
  dsimp only
  split_ifs <;> simp [resState, VMValPop_fst]

theorem execAND_BM (vm : VMContext) : (resState (execAND vm)).BM = vm.BM := by
  unfold execAND
  dsimp only
  split_ifs <;> simp [resState, VMValPop_fst]

theorem execOR_BM (vm : VMContext) : (resState (execOR vm)).BM = vm.BM := by
  unfold execOR
  dsimp only
  split_ifs <;> simp [resState, VMValPop_fst]

theorem execXOR_BM (vm : VMContext) : (resState (execXOR vm)).BM = vm.BM := by
  unfold execXOR
  dsimp only
  split_ifs <;> simp [resState, VMValPop_fst]

theorem execSHL_BM (vm : VMContext) : (resState (execSHL vm)).BM = vm.BM := by
  unfold execSHL
  dsimp only
  split_ifs <;> simp [resState, VMValPop_fst]

theorem execSHR_BM (vm : VMContext) : (resState (execSHR vm)).BM = vm.BM := by
  unfold execSHR
  dsimp only
  split_ifs <;> simp [resState, VMValPop_fst]

theorem execMUL_BM (vm : VMContext) : (resState (execMUL vm)).BM = vm.BM := by
  unfold execMUL
  dsimp only
  split_ifs <;> simp [resState, VMValPop_fst]

theorem execEQL_BM (vm : VMContext) : (resState (execEQL vm)).BM = vm.BM := by
  unfold execEQL
  dsimp only
  split_ifs <;> simp [resState, VMValPop_fst]

theorem execNEQ_BM (vm : VMContext) : (resState (execNEQ vm)).BM = vm.BM := by
  unfold execNEQ
  dsimp only
  split_ifs <;> simp [resState, VMValPop_fst]

theorem execLSS_BM (vm : VMContext) : (resState (execLSS vm)).BM = vm.BM := by
  unfold execLSS
  dsimp only
  split_ifs <;> simp [resState, VMValPop_fst]

theorem execGTR_BM (vm : VMContext) : (resState (execGTR vm)).BM = vm.BM := by
  unfold execGTR
  dsimp only
  split_ifs <;> simp [resState, VMValPop_fst]

theorem execLEQ_BM (vm : VMContext) : (resState (execLEQ vm)).BM = vm.BM := by
  unfold execLEQ
  dsimp only
  split_ifs <;> simp [resState, VMValPop_fst]

theorem execGEQ_BM (vm : VMContext) : (resState (execGEQ vm)).BM = vm.BM := by
  unfold execGEQ
  dsimp only
  split_ifs <;> simp [resState, VMValPop_fst]

theorem execCONVERT_BM (vm : VMContext) : (resState (execCONVERT vm)).BM = vm.BM := by
  unfold execCONVERT
  dsimp only
  split_ifs <;> simp [resState, VMValPop_fst]

theorem execSTORE_STRING_BM (vm : VMContext) :
    (resState (execSTORE_STRING vm)).BM = vm.BM := by
  unfold execSTORE_STRING
  dsimp only
  split_ifs <;> [skip; (repeat' split)] <;> simp [resState, VMValPop_fst, storeCopy_BM]

/-! ### Only HALT and ECALL touch the status field -/

theorem execRETURN_Status (vm : VMContext) :
    (resState (execRETURN vm)).Status = vm.Status := by
  unfold execRETURN
  dsimp only
  split_ifs <;> simp [resState, VMValPop_fst]

theorem execBRANCH_Status (vm : VMContext) :
    (resState (execBRANCH vm)).Status = vm.Status := by
  unfold execBRANCH
  dsimp only
  split_ifs <;> simp [resState, VMValPop_fst]

theorem execPUSH_Status (vm : VMContext) :
    (resState (execPUSH vm)).Status = vm.Status := by
  unfold execPUSH
  dsimp only
  split_ifs <;> simp [resState]

theorem execPOP_Status (vm : VMContext) :
    (resState (execPOP vm)).Status = vm.Status := by
  unfold execPOP
  dsimp only
  split_ifs <;> simp [resState]

theorem execASSIGN_Status (vm : VMContext) :
    (resState (execASSIGN vm)).Status = vm.Status := by
  unfold execASSIGN
  dsimp only
  split_ifs <;> simp [resState, VMValPop_fst]

theorem execADD_Status (vm : VMContext) :
    (resState (execADD vm)).Status = vm.Status := by
  unfold execADD
  dsimp only
  split_ifs <;> simp [resState, VMValPop_fst]

theorem execSUB_Status (vm : VMContext) :
    (resState (execSUB vm)).Status = vm.Status := by
  unfold execSUB
  dsimp only
  split_ifs <;> simp [resState, VMValPop_fst]

theorem execAND_Status (vm : VMContext) :
    (resState (execAND vm)).Status = vm.Status := by
  unfold execAND
  dsimp only
  split_ifs <;> simp [resState, VMValPop_fst]

theorem execOR_Status (vm : VMContext) :
    (resState (execOR vm)).Status = vm.Status := by
  unfold execOR
  dsimp only
  split_ifs <;> simp [resState, VMValPop_fst]

theorem execXOR_Status (vm : VMContext) :
    (resState (execXOR vm)).Status = vm.Status := by
  unfold execXOR
  dsimp only
  split_ifs <;> simp [resState, VMValPop_fst]

theorem execSHL_Status (vm : VMContext) :
    (resState (execSHL vm)).Status = vm.Status := by
  unfold execSHL
  dsimp only
  split_ifs <;> simp [resState, VMValPop_fst]

theorem execSHR_Status (vm : VMContext) :
    (resState (execSHR vm)).Status = vm.Status := by
  unfold execSHR
  dsimp only
  split_ifs <;> simp [resState, VMValPop_fst]

theorem execMUL_Status (vm : VMContext) :
    (resState (execMUL vm)).Status = vm.Status := by
  unfold execMUL
  dsimp only
  split_ifs <;> simp [resState, VMValPop_fst]

theorem execEQL_Status (vm : VMContext) :
    (resState (execEQL vm)).Status = vm.Status := by
  unfold execEQL
  dsimp only
  split_ifs <;> simp [resState, VMValPop_fst]

theorem execNEQ_Status (vm : VMContext) :
    (resState (execNEQ vm)).Status = vm.Status := by
  unfold execNEQ
  dsimp only
  split_ifs <;> simp [resState, VMValPop_fst]

theorem execLSS_Status (vm : VMContext) :
    (resState (execLSS vm)).Status = vm.Status := by
  unfold execLSS
  dsimp only
  split_ifs <;> simp [resState, VMValPop_fst]

theorem execGTR_Status (vm : VMContext) :
    (resState (execGTR vm)).Status = vm.Status := by
  unfold execGTR
  dsimp only
  split_ifs <;> simp [resState, VMValPop_fst]

theorem execLEQ_Status (vm : VMContext) :
    (resState (execLEQ vm)).Status = vm.Status := by
  unfold execLEQ
  dsimp only
  split_ifs <;> simp [resState, VMValPop_fst]

theorem execGEQ_Status (vm : VMContext) :
    (resState (execGEQ vm)).Status = vm.Status := by
  unfold execGEQ
  dsimp only
  split_ifs <;> simp [resState, VMValPop_fst]

theorem execCONVERT_Status (vm : VMContext) :
    (resState (execCONVERT vm)).Status = vm.Status := by
  unfold execCONVERT
  dsimp only
  split_ifs <;> simp [resState, VMValPop_fst]

theorem execSTORE_STRING_Status (vm : VMContext) :
    (resState (execSTORE_STRING vm)).Status = vm.Status := by
  unfold execSTORE_STRING
  dsimp only
  split_ifs <;> [skip; (repeat' split)] <;>
    simp [resState, VMValPop_fst, storeCopy_Status]

/-- Every switch case leaves the bytecode arena untouched, and only the
HALT and ECALL cases may change the status field. -/
theorem tickOp_shape (vm : VMContext) (op : Nat) :
    (resState (VMTickOp vm op)).BM = vm.BM ∧
      ((resState (VMTickOp vm op)).Status = vm.Status ∨
        VMTickOp vm op = execHALT vm ∨ VMTickOp vm op = execECALL vm) := by
  unfold VMTickOp
  by_cases h1 : op = OP_HALT
  · rw [if_pos h1]
    exact ⟨execHALT_BM vm, Or.inr (Or.inl rfl)⟩
  rw [if_neg h1]
  by_cases h2 : op = OP_ECALL
  · rw [if_pos h2]
    exact ⟨execECALL_BM vm, Or.inr (Or.inr rfl)⟩
  rw [if_neg h2]
  by_cases h3 : op = OP_CALL
  · rw [if_pos h3]
    exact ⟨execCALL_BM vm, Or.inl (execCALL_Status vm)⟩
  rw [if_neg h3]
  by_cases h4 : op = OP_RETURN
  · rw [if_pos h4]
    exact ⟨execRETURN_BM vm, Or.inl (execRETURN_Status vm)⟩
  rw [if_neg h4]
  by_cases h5 : op = OP_JUMP
  · rw [if_pos h5]
    exact ⟨execJUMP_BM vm, Or.inl (execJUMP_Status vm)⟩
  rw [if_neg h5]
  by_cases h6 : op = OP_BRANCH
  · rw [if_pos h6]
    exact ⟨execBRANCH_BM vm, Or.inl (execBRANCH_Status vm)⟩
  rw [if_neg h6]
  by_cases h7 : op = OP_PUSH
  · rw [if_pos h7]
    exact ⟨execPUSH_BM vm, Or.inl (execPUSH_Status vm)⟩
  rw [if_neg h7]
  by_cases h8 : op = OP_POP
  · rw [if_pos h8]
    exact ⟨execPOP_BM vm, Or.inl (execPOP_Status vm)⟩
  rw [if_neg h8]
  by_cases h9 : op = OP_ASSIGN
  · rw [if_pos h9]
    exact ⟨execASSIGN_BM vm, Or.inl (execASSIGN_Status vm)⟩
  rw [if_neg h9]
  by_cases h10 : op = OP_ADD
  · rw [if_pos h10]
    exact ⟨execADD_BM vm, Or.inl (execADD_Status vm)⟩
  rw [if_neg h10]
  by_cases h11 : op = OP_SUB
  · rw [if_pos h11]
    exact ⟨execSUB_BM vm, Or.inl (execSUB_Status vm)⟩
  rw [if_neg h11]
  by_cases h12 : op = OP_AND
  · rw [if_pos h12]
    exact ⟨execAND_BM vm, Or.inl (execAND_Status vm)⟩
  rw [if_neg h12]
  by_cases h13 : op = OP_OR
  · rw [if_pos h13]
    exact ⟨execOR_BM vm, Or.inl (execOR_Status vm)⟩
  rw [if_neg h13]
  by_cases h14 : op = OP_XOR
  · rw [if_pos h14]
    exact ⟨execXOR_BM vm, Or.inl (execXOR_Status vm)⟩
  rw [if_neg h14]
  by_cases h15 : op = OP_SHL
  · rw [if_pos h15]
    exact ⟨execSHL_BM vm, Or.inl (execSHL_Status vm)⟩
  rw [if_neg h15]
  by_cases h16 : op = OP_SHR
  · rw [if_pos h16]
    exact ⟨execSHR_BM vm, Or.inl (execSHR_Status vm)⟩
  rw [if_neg h16]
  by_cases h17 : op = OP_MUL
  · rw [if_pos h17]
    exact ⟨execMUL_BM vm, Or.inl (execMUL_Status vm)⟩
  rw [if_neg h17]
  by_cases h18 : op = OP_QUO
  · rw [if_pos h18]
    exact ⟨rfl, Or.inl rfl⟩
  rw [if_neg h18]
  by_cases h19 : op = OP_REM
  · rw [if_pos h19]
    exact ⟨rfl, Or.inl rfl⟩
  rw [if_neg h19]
  by_cases h20 : op = OP_EQL
  · rw [if_pos h20]
    exact ⟨execEQL_BM vm, Or.inl (execEQL_Status vm)⟩
  rw [if_neg h20]
  by_cases h21 : op = OP_NEQ
  · rw [if_pos h21]
    exact ⟨execNEQ_BM vm, Or.inl (execNEQ_Status vm)⟩
  rw [if_neg h21]
  by_cases h22 : op = OP_LSS
  · rw [if_pos h22]
    exact ⟨execLSS_BM vm, Or.inl (execLSS_Status vm)⟩
  rw [if_neg h22]
  by_cases h23 : op = OP_GTR
  · rw [if_pos h23]
    exact ⟨execGTR_BM vm, Or.inl (execGTR_Status vm)⟩
  rw [if_neg h23]
  by_cases h24 : op = OP_LEQ
  · rw [if_pos h24]
    exact ⟨execLEQ_BM vm, Or.inl (execLEQ_Status vm)⟩
  rw [if_neg h24]
  by_cases h25 : op = OP_GEQ
  · rw [if_pos h25]
    exact ⟨execGEQ_BM vm, Or.inl (execGEQ_Status vm)⟩
  rw [if_neg h25]
  by_cases h26 : op = OP_CONVERT
  · rw [if_pos h26]
    exact ⟨execCONVERT_BM vm, Or.inl (execCONVERT_Status vm)⟩
  rw [if_neg h26]
  by_cases h27 : op = OP_LOAD
  · rw [if_pos h27]
    exact ⟨rfl, Or.inl rfl⟩
  rw [if_neg h27]
  by_cases h28 : op = OP_STORE
  · rw [if_pos h28]
    exact ⟨rfl, Or.inl rfl⟩
  rw [if_neg h28]
  by_cases h29 : op = OP_STORE_STRING
  · rw [if_pos h29]
    exact ⟨execSTORE_STRING_BM vm, Or.inl (execSTORE_STRING_Status vm)⟩
  rw [if_neg h29]
  exact ⟨rfl, Or.inl rfl⟩

theorem tickOp_BM (vm : VMContext) (op : Nat) : (resState (VMTickOp vm op)).BM = vm.BM :=
  (tickOp_shape vm op).1

theorem tickOp_halt_or_Status (vm : VMContext) (op : Nat) :
    (resState (VMTickOp vm op)).Status = vm.Status ∨
      VMTickOp vm op = execHALT vm ∨ VMTickOp vm op = execECALL vm :=
  (tickOp_shape vm op).2

theorem tickOp_Status (vm : VMContext) (op : Nat) :
    (resState (VMTickOp vm op)).Status = vm.Status ∨
      (resState (VMTickOp vm op)).Status = VMS_HALT ∨
      (resState (VMTickOp vm op)).Status = VMS_ECALL := by
  rcases tickOp_halt_or_Status vm op with h | h | h
  · exact Or.inl h
  · rw [h]
    exact Or.inr (Or.inl rfl)
  · rw [h]
    exact Or.inr (Or.inr rfl)

theorem tickOp_err_Status (vm : VMContext) (op : Nat)
    (h : isOk (VMTickOp vm op) = false) :
    (resState (VMTickOp vm op)).Status = vm.Status := by
  rcases tickOp_halt_or_Status vm op with h1 | h1 | h1
  · exact h1
  · rw [h1] at h
    simp [execHALT, isOk] at h
  · rw [h1] at h
    simp [execECALL, isOk] at h

theorem tick_eq_tickOp (vm : VMContext) (op : Nat) (h : byteAt vm.BM vm.PC = op) :
    VMTick vm = VMTickOp vm op := by
  unfold VMTick
  rw [h]

/-! ### Arithmetic cancellation, descriptor sizes, and dispatch -/

theorem sub64_add64_cancel (x w : Nat) (hx : x < U64) (hw : w < U64) :
    sub64 (add64 x w) w = x := by
  unfold add64 sub64
  rw [Nat.mod_eq_of_lt hw, Nat.add_mod_mod]
  have h1 : U64 - w + (x + w) = U64 + x := by omega
  rw [h1, Nat.add_mod_left, Nat.mod_eq_of_lt hx]

theorem valid_size (b : Nat) (h : VMValInfoIsValid b = true) :
    VMValInfoSize b = 1 ∨ VMValInfoSize b = 2 ∨ VMValInfoSize b = 4 ∨ VMValInfoSize b = 8 := by
  unfold VMValInfoIsValid at h
  unfold VMValInfoSize
  by_cases hb : (b &&& 192) ≠ 0
  · rw [if_pos hb] at h
    exact absurd h (by simp)
  · rw [if_neg hb] at h
    simp only [Bool.or_eq_true, beq_iff_eq] at h
    tauto

theorem valid_size_le (b : Nat) (h : VMValInfoIsValid b = true) : VMValInfoSize b ≤ 8 := by
  rcases valid_size b h with h1 | h1 | h1 | h1 <;> omega

theorem valid_size_pos (b : Nat) (h : VMValInfoIsValid b = true) : 0 < VMValInfoSize b := by
  rcases valid_size b h with h1 | h1 | h1 | h1 <;> omega

theorem VMValPop_fst_SP_lt (vm : VMContext) (b : Nat) : ((VMValPop vm b).1).SP < U64 := by
  rw [VMValPop_fst]
  by_cases h : VMValInfoIsIndirect b = true <;> simp [h, sub64_lt]

theorem tickOp_CALL (vm : VMContext) : VMTickOp vm OP_CALL = execCALL vm := rfl

theorem tickOp_RETURN (vm : VMContext) : VMTickOp vm OP_RETURN = execRETURN vm := rfl

theorem tickOp_PUSH (vm : VMContext) : VMTickOp vm OP_PUSH = execPUSH vm := rfl

theorem tickOp_POP (vm : VMContext) : VMTickOp vm OP_POP = execPOP vm := rfl

theorem tickOp_ADD (vm : VMContext) : VMTickOp vm OP_ADD = execADD vm := rfl

theorem tickOp_SUB (vm : VMContext) : VMTickOp vm OP_SUB = execSUB vm := rfl

theorem tickOp_SHL (vm : VMContext) : VMTickOp vm OP_SHL = execSHL vm := rfl

theorem tickOp_SHR (vm : VMContext) : VMTickOp vm OP_SHR = execSHR vm := rfl

theorem tickOp_LSS (vm : VMContext) : VMTickOp vm OP_LSS = execLSS vm := rfl

theorem tickOp_GTR (vm : VMContext) : VMTickOp vm OP_GTR = execGTR vm := rfl

theorem tickOp_LEQ (vm : VMContext) : VMTickOp vm OP_LEQ = execLEQ vm := rfl

theorem tickOp_GEQ (vm : VMContext) : VMTickOp vm OP_GEQ = execGEQ vm := rfl

theorem tickOp_STORE_STRING (vm : VMContext) :
    VMTickOp vm OP_STORE_STRING = execSTORE_STRING vm := rfl

theorem execPUSH_ok (vm : VMContext)
    (hv : VMValInfoIsValid (byteAt vm.BM (add64 vm.PC 1)) = true)
    (hi : VMValInfoIsIndirect (byteAt vm.BM (add64 vm.PC 1)) = false) :
    execPUSH vm = .ok { vm with
      SM := VMValW vm.SM vm.SP (VMValInfoSize (byteAt vm.BM (add64 vm.PC 1)))
        (VMValR vm.BM (add64 vm.PC 2) (VMValInfoSize (byteAt vm.BM (add64 vm.PC 1)))),
      SP := add64 vm.SP (VMValInfoSize (byteAt vm.BM (add64 vm.PC 1))),
      PC := add64 vm.PC (2 + VMValInfoSize (byteAt vm.BM (add64 vm.PC 1))) } := by
  unfold execPUSH
  dsimp only
  rw [if_neg, if_neg]
  · rw [hi]
    simp
  · rw [hv]
    simp

theorem execPUSH_err_indirect (vm : VMContext)
    (hv : VMValInfoIsValid (byteAt vm.BM (add64 vm.PC 1)) = true)
    (hi : VMValInfoIsIndirect (byteAt vm.BM (add64 vm.PC 1)) = true) :
    execPUSH vm = .err "Invalid instruction!" vm := by
  unfold execPUSH
  dsimp only
  rw [if_neg, if_pos]
  · rw [hi]
  · rw [hv]
    simp

theorem execPOP_ok (vm : VMContext)
    (hv : VMValInfoIsValid (byteAt vm.BM (add64 vm.PC 1)) = true)
    (hi : VMValInfoIsIndirect (byteAt vm.BM (add64 vm.PC 1)) = false) :
    execPOP vm = .ok { vm with
      SP := sub64 vm.SP (VMValInfoSize (byteAt vm.BM (add64 vm.PC 1))),
      PC := add64 vm.PC 2 } := by
  unfold execPOP
  dsimp only
  rw [if_neg, if_neg]
  · rw [hi]
    simp
  · rw [hv]
    simp

theorem execRETURN_d0 (vm : VMContext)
    (h0 : byteAt vm.BM (add64 vm.PC 1) = 0) :
    execRETURN vm = .ok { vm with
      SP := add64 (VMValR vm.SM (sub64 vm.SP 8) 8) vm.FP,
      PC := VMValR vm.SM (sub64 vm.FP 8) 8,
      FP := VMValR vm.SM (sub64 vm.FP 16) 8 } := by
  unfold execRETURN
  dsimp only
  rw [if_pos h0]

/-! ### Per-case characterizations used by the claim proofs -/

theorem byteAt_VMValW_inside (m : Nat → Nat) (off s v x : Nat) (h1 : off ≤ x)
    (h2 : x < off + s) : byteAt (VMValW m off s v) x = shr64 v (8 * (x - off)) % 256 := by
  unfold byteAt
  rw [VMValW_inside m off s v x h1 h2]
  exact Nat.mod_mod_of_dvd _ dvd_rfl

theorem byteAt_VMValW_outside (m : Nat → Nat) (off s v x : Nat)
    (h : x < off ∨ off + s ≤ x) : byteAt (VMValW m off s v) x = byteAt m x := by
  unfold byteAt
  rw [VMValW_outside m off s v x h]

theorem execADD_dd (vm : VMContext) (d : Nat)
    (h1 : byteAt vm.BM (add64 vm.PC 1) = d)
    (h2 : byteAt vm.BM (add64 vm.PC 2) = d)
    (hv : VMValInfoIsValid d = true)
    (hi : VMValInfoIsIndirect d = false) :
    execADD vm = .ok { vm with
      SM := VMValW vm.SM (sub64 (sub64 vm.SP (VMValInfoSize d)) (VMValInfoSize d))
        (VMValInfoSize d)
        (add64
          (VMValR vm.SM (sub64 (sub64 vm.SP (VMValInfoSize d)) (VMValInfoSize d))
            (VMValInfoSize d))
          (VMValR vm.SM (sub64 vm.SP (VMValInfoSize d)) (VMValInfoSize d))),
      SP := add64 (sub64 (sub64 vm.SP (VMValInfoSize d)) (VMValInfoSize d)) (VMValInfoSize d),
      PC := add64 vm.PC 3 } := by
  unfold execADD
  dsimp only
  rw [h1, h2]
  rw [if_neg, if_neg]
  · rw [VMValPop_direct vm d hi]
    dsimp only
    rw [VMValPop_direct _ d hi]
  · simp
  · rw [hv]
    simp

theorem execSUB_dd (vm : VMContext) (d : Nat)
    (h1 : byteAt vm.BM (add64 vm.PC 1) = d)
    (h2 : byteAt vm.BM (add64 vm.PC 2) = d)
    (hv : VMValInfoIsValid d = true)
    (hi : VMValInfoIsIndirect d = false) :
    execSUB vm = .ok { vm with
      SM := VMValW vm.SM (sub64 (sub64 vm.SP (VMValInfoSize d)) (VMValInfoSize d))
        (VMValInfoSize d)
        (add64
          (VMValR vm.SM (sub64 (sub64 vm.SP (VMValInfoSize d)) (VMValInfoSize d))
            (VMValInfoSize d))
          (add64 (not64 (VMValR vm.SM (sub64 vm.SP (VMValInfoSize d)) (VMValInfoSize d))) 1)),
      SP := add64 (sub64 (sub64 vm.SP (VMValInfoSize d)) (VMValInfoSize d)) (VMValInfoSize d),
      PC := add64 vm.PC 3 } := by
  unfold execSUB
  dsimp only
  rw [h1, h2]
  rw [if_neg, if_neg]
  · rw [VMValPop_direct vm d hi]
    dsimp only
    rw [VMValPop_direct _ d hi]
  · simp
  · rw [hv]
    simp

theorem execSHL_ok (vm : VMContext)
    (hv1 : VMValInfoIsValid (byteAt vm.BM (add64 vm.PC 1)) = true)
    (hv2 : VMValInfoIsValid (byteAt vm.BM (add64 vm.PC 2)) = true)
    (hneg : (VMValInfoIsSigned (byteAt vm.BM (add64 vm.PC 2)) &&
      (VMValSignBit (VMValPop vm (byteAt vm.BM (add64 vm.PC 2))).2
        (VMValInfoSize (byteAt vm.BM (add64 vm.PC 2))) == 1)) = false) :
    ∃ v, execSHL vm = .ok v := by
  unfold execSHL
  dsimp only
  rw [if_neg, if_neg]
  · exact ⟨_, rfl⟩
  · rw [hneg]
    simp
  · rw [hv1, hv2]
    simp

theorem execSHR_ok (vm : VMContext)
    (hv1 : VMValInfoIsValid (byteAt vm.BM (add64 vm.PC 1)) = true)
    (hv2 : VMValInfoIsValid (byteAt vm.BM (add64 vm.PC 2)) = true)
    (hneg : (VMValInfoIsSigned (byteAt vm.BM (add64 vm.PC 2)) &&
      (VMValSignBit (VMValPop vm (byteAt vm.BM (add64 vm.PC 2))).2
        (VMValInfoSize (byteAt vm.BM (add64 vm.PC 2))) == 1)) = false) :
    ∃ v, execSHR vm = .ok v := by
  unfold execSHR
  dsimp only
  rw [if_neg, if_neg]
  · exact ⟨_, rfl⟩
  · rw [hneg]
    simp
  · rw [hv1, hv2]
    simp

theorem execSTORE_STRING_badaddr (vm : VMContext)
    (h : shr64 (VMValR vm.SM (add64 vm.FP (VMValR vm.SM (sub64 vm.SP 8) 8)) 8) 20 ≠ 3) :
    execSTORE_STRING vm = .err "Invalid memory address!" { vm with SP := sub64 vm.SP 8 } := by
  unfold execSTORE_STRING
  dsimp only
  rw [VMValPop_indirect vm 40 rfl]
  dsimp only
  rw [if_pos]
  exact h

/-! ### Concrete machine states and the claim theorems -/

/-- A byte arena holding the listed bytes at offsets 0, 1, ..., with every
other cell zero; used to build concrete machine states. -/
def arenaOfList (l : List Nat) : Nat → Nat := fun i => l.getD i 0

/-- A concrete running state whose next instruction byte 0x03 is not an
opcode of the machine. -/
def vmC3 : VMContext :=
  { MM := fun _ => 0, BM := arenaOfList [0x03], SM := fun _ => 0,
    PC := 0, FP := 0, SP := 0, Status := VMS_RUNNING }

/-- A concrete running state about to execute the reserved opcode OP_QUO. -/
def vmW3 : VMContext :=
  { MM := fun _ => 0, BM := arenaOfList [0x4d], SM := fun _ => 0,
    PC := 0, FP := 0, SP := 0, Status := VMS_RUNNING }

/-- A concrete running state about to execute PUSH with the valid indirect
descriptor 0x28. -/
def vmW10 : VMContext :=
  { MM := fun _ => 0, BM := arenaOfList [0x0c, 0x28], SM := fun _ => 0,
    PC := 0, FP := 0, SP := 0, Status := VMS_RUNNING }

/-- A concrete running state about to execute STORE_STRING with target
address 0, which lies outside the device window. -/
def vmW8 : VMContext :=
  { MM := fun _ => 7, BM := arenaOfList [0x22, 65, 66, 0], SM := fun _ => 0,
    PC := 0, FP := 0, SP := 8, Status := VMS_RUNNING }

/-- A concrete running state about to execute SHL with a valid left
descriptor 0x08 and the invalid right descriptor byte 0x03. -/
def vmC2 : VMContext :=
  { MM := fun _ => 0, BM := arenaOfList [0x48, 0x08, 0x03], SM := fun _ => 0,
    PC := 0, FP := 0, SP := 16, Status := VMS_RUNNING }

/-- A concrete running state about to execute SHL with valid but mismatched
descriptors: 8-byte unsigned left operand 2, 1-byte unsigned count 1. -/
def vmW2 : VMContext :=
  { MM := fun _ => 0, BM := arenaOfList [0x48, 0x08, 0x01],
    SM := arenaOfList [2, 0, 0, 0, 0, 0, 0, 0, 1],
    PC := 0, FP := 0, SP := 9, Status := VMS_RUNNING }

/-- Claim C9: every execution step, for every opcode, leaves the instruction
store byte-for-byte unchanged: VMTick never writes the bytecode arena, also
on the fatal stop paths. -/
theorem instruction_store_readonly (vm : VMContext) :
    (resState (VMTick vm)).BM = vm.BM := by
  rw [tick_eq_tickOp vm (byteAt vm.BM vm.PC) rfl]
  exact tickOp_BM vm (byteAt vm.BM vm.PC)

/-- Claim C10: executing PUSH with a valid descriptor whose indirect bit is
set is a fatal invalid-instruction stop before any state changes: the state
at the stop is the unmodified input state, so no frame-relative load is
performed. -/
theorem push_rejects_indirect (vm : VMContext)
    (hop : byteAt vm.BM vm.PC = OP_PUSH)
    (hv : VMValInfoIsValid (byteAt vm.BM (add64 vm.PC 1)) = true)
    (hi : VMValInfoIsIndirect (byteAt vm.BM (add64 vm.PC 1)) = true) :
    VMTick vm = .err "Invalid instruction!" vm := by
  rw [tick_eq_tickOp vm OP_PUSH hop, tickOp_PUSH]
  exact execPUSH_err_indirect vm hv hi

theorem push_rejects_indirect_witness :
    VMTick vmW10 = .err "Invalid instruction!" vmW10 :=
  push_rejects_indirect vmW10 (by decide) (by decide) (by decide)

/-- Claim C3 counterexample: a step on an unknown opcode stops the machine
fatally, but the machine status is not set to Illegal: the state at the stop
still holds the Running status. -/
theorem illegal_stop_keeps_running_status :
    VMTick vmC3 = .err "Invalid instruction!" vmC3 ∧
      (resState (VMTick vmC3)).Status = VMS_RUNNING ∧ VMS_RUNNING ≠ VMS_ILLEGAL :=
  ⟨rfl, rfl, by decide⟩

/-- Claim C3 (amended): whenever a step encounters a condition it cannot
handle, the machine stops immediately and unrecoverably with a fatal error
reported to the driver, producing no successor state; the status field is
left at Running and is never set to Illegal. -/
theorem fatal_stop_leaves_status (vm : VMContext)
    (hrun : vm.Status = VMS_RUNNING)
    (herr : isOk (VMTick vm) = false) :
    (resState (VMTick vm)).Status = VMS_RUNNING ∧
      (resState (VMTick vm)).Status ≠ VMS_ILLEGAL := by
  rw [tick_eq_tickOp vm (byteAt vm.BM vm.PC) rfl] at herr ⊢
  have h := tickOp_err_Status vm (byteAt vm.BM vm.PC) herr
  rw [h, hrun]
  exact ⟨rfl, by decide⟩

theorem fatal_stop_leaves_status_witness :
    (resState (VMTick vmW3)).Status = VMS_RUNNING ∧
      (resState (VMTick vmW3)).Status ≠ VMS_ILLEGAL :=
  fatal_stop_leaves_status vmW3 rfl (by decide)

/-- Claim C8: a STORE_STRING step whose popped target address lies outside
the device window (bits 20 and up not equal to 0x3) fails fatally before any
byte is copied: the general memory of the state at the stop is byte-for-byte
the input general memory. -/
theorem store_string_bad_address (vm : VMContext)
    (hop : byteAt vm.BM vm.PC = OP_STORE_STRING)
    (haddr : shr64 (VMValR vm.SM (add64 vm.FP (VMValR vm.SM (sub64 vm.SP 8) 8)) 8) 20 ≠ 3) :
    ∃ v, VMTick vm = .err "Invalid memory address!" v ∧ v.MM = vm.MM := by
  rw [tick_eq_tickOp vm OP_STORE_STRING hop, tickOp_STORE_STRING,
    execSTORE_STRING_badaddr vm haddr]
  exact ⟨_, rfl, rfl⟩

theorem store_string_bad_address_witness :
    ∃ v, VMTick vmW8 = .err "Invalid memory address!" v ∧ v.MM = vmW8.MM :=
  store_string_bad_address vmW8 (by decide) (by decide)

/-- Claim C2 counterexample: a SHL step whose left descriptor byte 0x08 is
valid but whose right descriptor byte 0x03 is invalid stops fatally with an
invalid-instruction error instead of succeeding. -/
theorem shift_rejects_invalid_right :
    VMValInfoIsValid 0x08 = true ∧ VMValInfoIsValid 0x03 = false ∧
      VMTick vmC2 = .err "Invalid instruction!" vmC2 :=
  ⟨rfl, rfl, rfl⟩

/-- Claim C2 (amended): a SHL or SHR step succeeds whenever both descriptor
bytes are valid and the right operand is not a negative signed count; no
width or signedness match between the two descriptors is required. -/
theorem shift_no_match_required (vm : VMContext) (op : Nat)
    (hop : byteAt vm.BM vm.PC = op)
    (hsl : op = OP_SHL ∨ op = OP_SHR)
    (hv1 : VMValInfoIsValid (byteAt vm.BM (add64 vm.PC 1)) = true)
    (hv2 : VMValInfoIsValid (byteAt vm.BM (add64 vm.PC 2)) = true)
    (hneg : (VMValInfoIsSigned (byteAt vm.BM (add64 vm.PC 2)) &&
      (VMValSignBit (VMValPop vm (byteAt vm.BM (add64 vm.PC 2))).2
        (VMValInfoSize (byteAt vm.BM (add64 vm.PC 2))) == 1)) = false) :
    ∃ v, VMTick vm = .ok v := by
  rcases hsl with h | h
  · rw [tick_eq_tickOp vm op hop, h, tickOp_SHL]
    exact execSHL_ok vm hv1 hv2 hneg
  · rw [tick_eq_tickOp vm op hop, h, tickOp_SHR]
    exact execSHR_ok vm hv1 hv2 hneg

theorem shift_no_match_required_witness : ∃ v, VMTick vmW2 = .ok v :=
  shift_no_match_required vmW2 OP_SHL (by decide) (Or.inl rfl) (by decide) (by decide)
    (by decide)

theorem not64_zero_byte (i : Nat) (h : i < 8) : shr64 (not64 0) (8 * i) % 256 = 255 := by
  interval_cases i <;> decide

/-- A concrete running state about to execute SHR on the 1-byte signed value
0x80 with shift count 2, which exceeds the 1-byte operand width. -/
def vmW4 : VMContext :=
  { MM := fun _ => 0, BM := arenaOfList [0x49, 0x11, 0x01],
    SM := arenaOfList [0x80, 0x02],
    PC := 0, FP := 0, SP := 2, Status := VMS_RUNNING }

/-- Claim C4: a SHR step with a valid signed left descriptor, a popped left
operand whose sign bit is set, a right operand that passes the
negative-count check, and a shift count exceeding the operand byte width,
succeeds and pushes a result all of whose width(d1) bytes are 0xFF. -/
theorem shr_negative_saturates (vm : VMContext)
    (hop : byteAt vm.BM vm.PC = OP_SHR)
    (hv1 : VMValInfoIsValid (byteAt vm.BM (add64 vm.PC 1)) = true)
    (hv2 : VMValInfoIsValid (byteAt vm.BM (add64 vm.PC 2)) = true)
    (hs1 : VMValInfoIsSigned (byteAt vm.BM (add64 vm.PC 1)) = true)
    (hneg : (VMValInfoIsSigned (byteAt vm.BM (add64 vm.PC 2)) &&
      (VMValSignBit (VMValPop vm (byteAt vm.BM (add64 vm.PC 2))).2
        (VMValInfoSize (byteAt vm.BM (add64 vm.PC 2))) == 1)) = false)
    (hsb : VMValSignBit
      (VMValPop (VMValPop vm (byteAt vm.BM (add64 vm.PC 2))).1
        (byteAt vm.BM (add64 vm.PC 1))).2
      (VMValInfoSize (byteAt vm.BM (add64 vm.PC 1))) = 1)
    (hcnt : (VMValPop vm (byteAt vm.BM (add64 vm.PC 2))).2 >
      VMValInfoSize (byteAt vm.BM (add64 vm.PC 1))) :
    ∃ v, VMTick vm = .ok v ∧ ∀ i, i < VMValInfoSize (byteAt vm.BM (add64 vm.PC 1)) →
      v.SM (((VMValPop (VMValPop vm (byteAt vm.BM (add64 vm.PC 2))).1
        (byteAt vm.BM (add64 vm.PC 1))).1).SP + i) = 255 := by
  rw [tick_eq_tickOp vm OP_SHR hop, tickOp_SHR]
  unfold execSHR
  dsimp only
  rw [if_neg, if_neg]
  · rw [if_pos, if_pos hcnt]
    · refine ⟨_, rfl, fun i hi => ?_⟩
      dsimp only
      rw [VMValW_inside _ _ _ _ _ (Nat.le_add_right _ _) (by omega),
        Nat.add_sub_cancel_left]
      exact not64_zero_byte i (lt_of_lt_of_le hi (valid_size_le _ hv1))
    · rw [hs1, hsb]
      decide
  · rw [hneg]
    simp
  · rw [hv1, hv2]
    simp

theorem shr_negative_saturates_witness :
    ∃ v, VMTick vmW4 = .ok v ∧ ∀ i, i < VMValInfoSize (byteAt vmW4.BM (add64 vmW4.PC 1)) →
      v.SM (((VMValPop (VMValPop vmW4 (byteAt vmW4.BM (add64 vmW4.PC 2))).1
        (byteAt vmW4.BM (add64 vmW4.PC 1))).1).SP + i) = 255 :=
  shr_negative_saturates vmW4 (by decide) (by decide) (by decide) (by decide) (by decide)
    (by decide) (by decide)

/-- Claim C6: for the ordered comparisons LSS, GTR, LEQ and GEQ with
matching valid signed descriptors, the popped operand whose sign bit is set
is ordered below the one whose sign bit is clear regardless of raw
magnitude, and only when both or neither sign bit is set does raw unsigned
comparison decide the pushed result byte. -/
theorem signed_compare_sign_bit_first (vm : VMContext) (op : Nat)
    (hop : byteAt vm.BM vm.PC = op)
    (hv1 : VMValInfoIsValid (byteAt vm.BM (add64 vm.PC 1)) = true)
    (hv2 : VMValInfoIsValid (byteAt vm.BM (add64 vm.PC 2)) = true)
    (hm : (byteAt vm.BM (add64 vm.PC 1)) &&& 31 = (byteAt vm.BM (add64 vm.PC 2)) &&& 31)
    (hs : VMValInfoIsSigned (byteAt vm.BM (add64 vm.PC 1)) = true) :
    (op = OP_LSS → pushedByte vm = some
      (if VMValSignBit (VMValPop (VMValPop vm (byteAt vm.BM (add64 vm.PC 2))).1 (byteAt vm.BM (add64 vm.PC 1))).2 (VMValInfoSize (byteAt vm.BM (add64 vm.PC 1))) = 1 ∧ ¬ VMValSignBit (VMValPop vm (byteAt vm.BM (add64 vm.PC 2))).2 (VMValInfoSize (byteAt vm.BM (add64 vm.PC 2))) = 1 then 1
      else if ¬ VMValSignBit (VMValPop (VMValPop vm (byteAt vm.BM (add64 vm.PC 2))).1 (byteAt vm.BM (add64 vm.PC 1))).2 (VMValInfoSize (byteAt vm.BM (add64 vm.PC 1))) = 1 ∧ VMValSignBit (VMValPop vm (byteAt vm.BM (add64 vm.PC 2))).2 (VMValInfoSize (byteAt vm.BM (add64 vm.PC 2))) = 1 then 0
      else if (VMValPop (VMValPop vm (byteAt vm.BM (add64 vm.PC 2))).1 (byteAt vm.BM (add64 vm.PC 1))).2 < (VMValPop vm (byteAt vm.BM (add64 vm.PC 2))).2 then 1 else 0)) ∧
    (op = OP_GTR → pushedByte vm = some
      (if VMValSignBit (VMValPop (VMValPop vm (byteAt vm.BM (add64 vm.PC 2))).1 (byteAt vm.BM (add64 vm.PC 1))).2 (VMValInfoSize (byteAt vm.BM (add64 vm.PC 1))) = 1 ∧ ¬ VMValSignBit (VMValPop vm (byteAt vm.BM (add64 vm.PC 2))).2 (VMValInfoSize (byteAt vm.BM (add64 vm.PC 2))) = 1 then 0
      else if ¬ VMValSignBit (VMValPop (VMValPop vm (byteAt vm.BM (add64 vm.PC 2))).1 (byteAt vm.BM (add64 vm.PC 1))).2 (VMValInfoSize (byteAt vm.BM (add64 vm.PC 1))) = 1 ∧ VMValSignBit (VMValPop vm (byteAt vm.BM (add64 vm.PC 2))).2 (VMValInfoSize (byteAt vm.BM (add64 vm.PC 2))) = 1 then 1
      else if (VMValPop (VMValPop vm (byteAt vm.BM (add64 vm.PC 2))).1 (byteAt vm.BM (add64 vm.PC 1))).2 > (VMValPop vm (byteAt vm.BM (add64 vm.PC 2))).2 then 1 else 0)) ∧
    (op = OP_LEQ → pushedByte vm = some
      (if VMValSignBit (VMValPop (VMValPop vm (byteAt vm.BM (add64 vm.PC 2))).1 (byteAt vm.BM (add64 vm.PC 1))).2 (VMValInfoSize (byteAt vm.BM (add64 vm.PC 1))) = 1 ∧ ¬ VMValSignBit (VMValPop vm (byteAt vm.BM (add64 vm.PC 2))).2 (VMValInfoSize (byteAt vm.BM (add64 vm.PC 2))) = 1 then 1
      else if ¬ VMValSignBit (VMValPop (VMValPop vm (byteAt vm.BM (add64 vm.PC 2))).1 (byteAt vm.BM (add64 vm.PC 1))).2 (VMValInfoSize (byteAt vm.BM (add64 vm.PC 1))) = 1 ∧ VMValSignBit (VMValPop vm (byteAt vm.BM (add64 vm.PC 2))).2 (VMValInfoSize (byteAt vm.BM (add64 vm.PC 2))) = 1 then 0
      else if (VMValPop (VMValPop vm (byteAt vm.BM (add64 vm.PC 2))).1 (byteAt vm.BM (add64 vm.PC 1))).2 ≤ (VMValPop vm (byteAt vm.BM (add64 vm.PC 2))).2 then 1 else 0)) ∧
    (op = OP_GEQ → pushedByte vm = some
      (if VMValSignBit (VMValPop (VMValPop vm (byteAt vm.BM (add64 vm.PC 2))).1 (byteAt vm.BM (add64 vm.PC 1))).2 (VMValInfoSize (byteAt vm.BM (add64 vm.PC 1))) = 1 ∧ ¬ VMValSignBit (VMValPop vm (byteAt vm.BM (add64 vm.PC 2))).2 (VMValInfoSize (byteAt vm.BM (add64 vm.PC 2))) = 1 then 0
      else if ¬ VMValSignBit (VMValPop (VMValPop vm (byteAt vm.BM (add64 vm.PC 2))).1 (byteAt vm.BM (add64 vm.PC 1))).2 (VMValInfoSize (byteAt vm.BM (add64 vm.PC 1))) = 1 ∧ VMValSignBit (VMValPop vm (byteAt vm.BM (add64 vm.PC 2))).2 (VMValInfoSize (byteAt vm.BM (add64 vm.PC 2))) = 1 then 1
      else if (VMValPop (VMValPop vm (byteAt vm.BM (add64 vm.PC 2))).1 (byteAt vm.BM (add64 vm.PC 1))).2 ≥ (VMValPop vm (byteAt vm.BM (add64 vm.PC 2))).2 then 1 else 0)) := by
  refine ⟨fun h => ?_, fun h => ?_, fun h => ?_, fun h => ?_⟩
  · subst h
    unfold pushedByte
    rw [tick_eq_tickOp vm OP_LSS hop, tickOp_LSS]
    unfold execLSS
    dsimp only
    rw [if_neg, if_neg]
    · dsimp only
      rw [sub64_add64_cancel _ 1 (VMValPop_fst_SP_lt _ _) (by norm_num [U64])]
      rw [byteAt_VMValW_inside _ _ _ _ _ (le_refl _) (by omega), Nat.sub_self,
        Nat.mul_zero, shr64_small _ (by norm_num), Nat.shiftRight_zero, hs,
        if_pos rfl]
      congr 1
      split_ifs <;> norm_num
    · exact fun hc => hc hm
    · rw [hv1, hv2]
      simp
  · subst h
    unfold pushedByte
    rw [tick_eq_tickOp vm OP_GTR hop, tickOp_GTR]
    unfold execGTR
    dsimp only
    rw [if_neg, if_neg]
    · dsimp only
      rw [sub64_add64_cancel _ 1 (VMValPop_fst_SP_lt _ _) (by norm_num [U64])]
      rw [byteAt_VMValW_inside _ _ _ _ _ (le_refl _) (by omega), Nat.sub_self,
        Nat.mul_zero, shr64_small _ (by norm_num), Nat.shiftRight_zero, hs,
        if_pos rfl]
      congr 1
      split_ifs <;> norm_num
    · exact fun hc => hc hm
    · rw [hv1, hv2]
      simp
  · subst h
    unfold pushedByte
    rw [tick_eq_tickOp vm OP_LEQ hop, tickOp_LEQ]
    unfold execLEQ
    dsimp only
    rw [if_neg, if_neg]
    · dsimp only
      rw [sub64_add64_cancel _ 1 (VMValPop_fst_SP_lt _ _) (by norm_num [U64])]
      rw [byteAt_VMValW_inside _ _ _ _ _ (le_refl _) (by omega), Nat.sub_self,
        Nat.mul_zero, shr64_small _ (by norm_num), Nat.shiftRight_zero, hs,
        if_pos rfl]
      congr 1
      split_ifs <;> norm_num
    · exact fun hc => hc hm
    · rw [hv1, hv2]
      simp
  · subst h
    unfold pushedByte
    rw [tick_eq_tickOp vm OP_GEQ hop, tickOp_GEQ]
    unfold execGEQ
    dsimp only
    rw [if_neg, if_neg]
    · dsimp only
      rw [sub64_add64_cancel _ 1 (VMValPop_fst_SP_lt _ _) (by norm_num [U64])]
      rw [byteAt_VMValW_inside _ _ _ _ _ (le_refl _) (by omega), Nat.sub_self,
        Nat.mul_zero, shr64_small _ (by norm_num), Nat.shiftRight_zero, hs,
        if_pos rfl]
      congr 1
      split_ifs <;> norm_num
    · exact fun hc => hc hm
    · rw [hv1, hv2]
      simp

/-- A concrete running state about to execute LSS on 1-byte signed operands
0xFF (left) and 0x01 (right). -/
def vmW6 : VMContext :=
  { MM := fun _ => 0, BM := arenaOfList [0x52, 0x11, 0x11],
    SM := arenaOfList [0xFF, 0x01],
    PC := 0, FP := 0, SP := 2, Status := VMS_RUNNING }

theorem signed_compare_sign_bit_first_witness : pushedByte vmW6 = some 1 := by
  have h := (signed_compare_sign_bit_first vmW6 OP_LSS rfl (by decide) (by decide)
    (by decide) (by decide)).1 rfl
  rw [h]
  decide

/-- A concrete running state about to PUSH the 1-byte literal 0xAB and then
POP it with the same descriptor 0x01. -/
def vmC5 : VMContext :=
  { MM := fun _ => 0, BM := arenaOfList [0x0c, 0x01, 0xAB, 0x0d, 0x01],
    SM := fun _ => 0,
    PC := 0, FP := 0, SP := 0, Status := VMS_RUNNING }

/-- Claim C5 counterexample: PUSH of the 1-byte literal 0xAB followed by POP
of the same descriptor restores sp but leaves the pushed literal in stack
memory: the byte at offset 0 changes from 0x00 to 0xAB, so the pair is not
a no-op on stack memory. -/
theorem push_pop_changes_stack_memory :
    isOk (stepN 2 vmC5) = true ∧
      (resState (stepN 2 vmC5)).SP = vmC5.SP ∧
      (resState (stepN 2 vmC5)).SM 0 = 0xAB ∧ vmC5.SM 0 = 0 ∧ (0xAB : Nat) ≠ 0 := by
  refine ⟨by decide, by decide, by decide, rfl, by decide⟩

/-- Claim C5 (amended): PUSH of a valid direct descriptor followed by POP of
the same descriptor leaves sp, fp, status, general memory and the
instruction store unchanged, advances pc past both instructions, and
changes stack memory only in the width(d) bytes at or above the unchanged
stack pointer, where the immediate literal remains. -/
theorem push_pop_roundtrip (vm : VMContext) (d : Nat)
    (hv : VMValInfoIsValid d = true)
    (hi : VMValInfoIsIndirect d = false)
    (hSP : vm.SP < U64)
    (h0 : byteAt vm.BM vm.PC = OP_PUSH)
    (h1 : byteAt vm.BM (add64 vm.PC 1) = d)
    (h2 : byteAt vm.BM (add64 vm.PC (2 + VMValInfoSize d)) = OP_POP)
    (h3 : byteAt vm.BM (add64 (add64 vm.PC (2 + VMValInfoSize d)) 1) = d) :
    ∃ v, stepN 2 vm = .ok v ∧ v.SP = vm.SP ∧ v.FP = vm.FP ∧ v.Status = vm.Status ∧
      v.MM = vm.MM ∧ v.BM = vm.BM ∧
      v.PC = add64 (add64 vm.PC (2 + VMValInfoSize d)) 2 ∧
      ∀ x, x < vm.SP ∨ vm.SP + VMValInfoSize d ≤ x → v.SM x = vm.SM x := by
  have e1 : VMTick vm = .ok { vm with
      SM := VMValW vm.SM vm.SP (VMValInfoSize d) (VMValR vm.BM (add64 vm.PC 2) (VMValInfoSize d)),
      SP := add64 vm.SP (VMValInfoSize d),
      PC := add64 vm.PC (2 + VMValInfoSize d) } := by
    rw [tick_eq_tickOp vm OP_PUSH h0, tickOp_PUSH,
      execPUSH_ok vm (by rw [h1]; exact hv) (by rw [h1]; exact hi), h1]
  have e2 : VMTick { vm with
      SM := VMValW vm.SM vm.SP (VMValInfoSize d) (VMValR vm.BM (add64 vm.PC 2) (VMValInfoSize d)),
      SP := add64 vm.SP (VMValInfoSize d),
      PC := add64 vm.PC (2 + VMValInfoSize d) } = .ok { vm with
      SM := VMValW vm.SM vm.SP (VMValInfoSize d) (VMValR vm.BM (add64 vm.PC 2) (VMValInfoSize d)),
      SP := sub64 (add64 vm.SP (VMValInfoSize d)) (VMValInfoSize d),
      PC := add64 (add64 vm.PC (2 + VMValInfoSize d)) 2 } := by
    rw [tick_eq_tickOp _ OP_POP (by dsimp only; exact h2), tickOp_POP,
      execPOP_ok _ (by dsimp only; rw [h3]; exact hv) (by dsimp only; rw [h3]; exact hi)]
    dsimp only
    rw [h3]
  refine ⟨{ vm with
      SM := VMValW vm.SM vm.SP (VMValInfoSize d) (VMValR vm.BM (add64 vm.PC 2) (VMValInfoSize d)),
      SP := sub64 (add64 vm.SP (VMValInfoSize d)) (VMValInfoSize d),
      PC := add64 (add64 vm.PC (2 + VMValInfoSize d)) 2 }, ?_, ?_, rfl, rfl, rfl, rfl, rfl, ?_⟩
  · show stepN 2 vm = _
    simp only [stepN, stepBind, e1, e2]
  · show sub64 (add64 vm.SP (VMValInfoSize d)) (VMValInfoSize d) = vm.SP
    exact sub64_add64_cancel vm.SP (VMValInfoSize d) hSP
      (lt_of_le_of_lt (valid_size_le d hv) (by norm_num [U64]))
  · intro x hx
    show VMValW vm.SM vm.SP (VMValInfoSize d) _ x = vm.SM x
    exact VMValW_outside _ _ _ _ x (by omega)

theorem push_pop_roundtrip_witness :
    ∃ v, stepN 2 vmC5 = .ok v ∧ v.SP = vmC5.SP ∧ v.FP = vmC5.FP ∧
      v.Status = vmC5.Status ∧ v.MM = vmC5.MM ∧ v.BM = vmC5.BM ∧
      v.PC = add64 (add64 vmC5.PC (2 + VMValInfoSize 0x01)) 2 ∧
      ∀ x, x < vmC5.SP ∨ vmC5.SP + VMValInfoSize 0x01 ≤ x → v.SM x = vmC5.SM x :=
  push_pop_roundtrip vmC5 0x01 (by decide) (by decide) (by decide) (by decide)
    (by decide) (by decide) (by decide)

theorem mod_u64_modeq (N : Nat) (hdvd : N ∣ U64) (x : Nat) : x % U64 ≡ x [MOD N] :=
  Nat.mod_mod_of_dvd x hdvd

theorem sub_add_roundtrip (w a b : Nat) (hw : w ≤ 8) (ha : a < 2 ^ (8 * w))
    (hb : b < 2 ^ (8 * w)) :
    add64 (add64 a b % 2 ^ (8 * w)) (add64 (not64 b) 1) % 2 ^ (8 * w) = a := by
  have hU : U64 = 2 ^ 64 := by norm_num [U64]
  have hNle : (2 : Nat) ^ (8 * w) ≤ 2 ^ 64 := Nat.pow_le_pow_right (by norm_num) (by omega)
  have hbU : b < U64 := lt_of_lt_of_le hb (hU ▸ hNle)
  have hdvd : (2 ^ (8 * w) : Nat) ∣ U64 := by
    rw [hU]
    exact pow_dvd_pow 2 (by omega)
  unfold add64 not64
  rw [Nat.mod_eq_of_lt hbU]
  have h1 : U64 - 1 - b + 1 = U64 - b := by omega
  rw [h1]
  rw [Nat.mod_mod_of_dvd _ hdvd]
  have key : (a + b) % U64 % 2 ^ (8 * w) + (U64 - b) % U64 ≡ a [MOD 2 ^ (8 * w)] := by
    have k1 : (a + b) % U64 % 2 ^ (8 * w) ≡ a + b [MOD 2 ^ (8 * w)] := by
      calc (a + b) % U64 % 2 ^ (8 * w) ≡ (a + b) % U64 [MOD 2 ^ (8 * w)] :=
            Nat.mod_mod_of_dvd _ dvd_rfl
        _ ≡ a + b [MOD 2 ^ (8 * w)] := mod_u64_modeq _ hdvd _
    have k2 : (U64 - b) % U64 ≡ U64 - b [MOD 2 ^ (8 * w)] := mod_u64_modeq _ hdvd _
    calc (a + b) % U64 % 2 ^ (8 * w) + (U64 - b) % U64
        ≡ (a + b) + (U64 - b) [MOD 2 ^ (8 * w)] := Nat.ModEq.add k1 k2
      _ = a + U64 := by omega
      _ ≡ a + 0 [MOD 2 ^ (8 * w)] :=
          Nat.ModEq.add_left a ((Nat.modEq_zero_iff_dvd).mpr hdvd)
      _ = a := by omega
  calc ((a + b) % U64 % 2 ^ (8 * w) + (U64 - b) % U64) % 2 ^ (8 * w)
      = a % 2 ^ (8 * w) := key
    _ = a := Nat.mod_eq_of_lt ha

/-- Claim C7: pushing a and b, executing ADD d d, pushing b again and
executing SUB d d leaves the value a on top of the stack: within the
representable range SUB undoes ADD. -/
theorem add_then_sub_restores (vm : VMContext) (d a b : Nat)
    (hv : VMValInfoIsValid d = true)
    (hi : VMValInfoIsIndirect d = false)
    (ha : a < 2 ^ (8 * VMValInfoSize d))
    (hb : b < 2 ^ (8 * VMValInfoSize d))
    (hsp2 : 2 * VMValInfoSize d ≤ vm.SP)
    (hSP : vm.SP < U64)
    (h0 : byteAt vm.BM vm.PC = OP_ADD)
    (h1 : byteAt vm.BM (add64 vm.PC 1) = d)
    (h2 : byteAt vm.BM (add64 vm.PC 2) = d)
    (h3 : byteAt vm.BM (add64 vm.PC 3) = OP_PUSH)
    (h4 : byteAt vm.BM (add64 (add64 vm.PC 3) 1) = d)
    (h5 : VMValR vm.BM (add64 (add64 vm.PC 3) 2) (VMValInfoSize d) = b)
    (h6 : byteAt vm.BM (add64 (add64 vm.PC 3) (2 + VMValInfoSize d)) = OP_SUB)
    (h7 : byteAt vm.BM (add64 (add64 (add64 vm.PC 3) (2 + VMValInfoSize d)) 1) = d)
    (h8 : byteAt vm.BM (add64 (add64 (add64 vm.PC 3) (2 + VMValInfoSize d)) 2) = d)
    (hsma : VMValR vm.SM (vm.SP - 2 * VMValInfoSize d) (VMValInfoSize d) = a)
    (hsmb : VMValR vm.SM (vm.SP - VMValInfoSize d) (VMValInfoSize d) = b) :
    ∃ v, stepN 3 vm = .ok v ∧ v.SP = vm.SP - VMValInfoSize d ∧
      VMValR v.SM (vm.SP - 2 * VMValInfoSize d) (VMValInfoSize d) = a := by
  have hw8 : VMValInfoSize d ≤ 8 := valid_size_le d hv
  have hwU : VMValInfoSize d < U64 := lt_of_le_of_lt hw8 (by norm_num [U64])
  have eS1 : sub64 vm.SP (VMValInfoSize d) = vm.SP - VMValInfoSize d :=
    sub64_eq (by omega) hSP
  have eS2 : sub64 (vm.SP - VMValInfoSize d) (VMValInfoSize d) = vm.SP - 2 * VMValInfoSize d := by
    rw [sub64_eq (by omega) (by omega), Nat.sub_sub]
    congr 1
    omega
  have eA : add64 (vm.SP - 2 * VMValInfoSize d) (VMValInfoSize d) = vm.SP - VMValInfoSize d := by
    rw [add64_eq (by omega)]
    omega
  have eB : add64 (vm.SP - VMValInfoSize d) (VMValInfoSize d) = vm.SP := by
    rw [add64_eq (by omega)]
    omega
  have e1 : VMTick vm = .ok { vm with
      SM := VMValW vm.SM (vm.SP - 2 * VMValInfoSize d) (VMValInfoSize d) (add64 a b),
      SP := vm.SP - VMValInfoSize d,
      PC := add64 vm.PC 3 } := by
    rw [tick_eq_tickOp vm OP_ADD h0, tickOp_ADD, execADD_dd vm d h1 h2 hv hi, eS1, eS2, eA,
      hsma, hsmb]
  have e2 : VMTick { vm with
      SM := VMValW vm.SM (vm.SP - 2 * VMValInfoSize d) (VMValInfoSize d) (add64 a b),
      SP := vm.SP - VMValInfoSize d,
      PC := add64 vm.PC 3 } = .ok { vm with
      SM := VMValW (VMValW vm.SM (vm.SP - 2 * VMValInfoSize d) (VMValInfoSize d) (add64 a b))
        (vm.SP - VMValInfoSize d) (VMValInfoSize d) b,
      SP := vm.SP,
      PC := add64 (add64 vm.PC 3) (2 + VMValInfoSize d) } := by
    rw [tick_eq_tickOp _ OP_PUSH (by dsimp only; exact h3), tickOp_PUSH,
      execPUSH_ok _ (by dsimp only; rw [h4]; exact hv) (by dsimp only; rw [h4]; exact hi)]
    dsimp only
    rw [h4, h5, eB]
  have e3 : VMTick { vm with
      SM := VMValW (VMValW vm.SM (vm.SP - 2 * VMValInfoSize d) (VMValInfoSize d) (add64 a b))
        (vm.SP - VMValInfoSize d) (VMValInfoSize d) b,
      SP := vm.SP,
      PC := add64 (add64 vm.PC 3) (2 + VMValInfoSize d) } = .ok { vm with
      SM := VMValW
        (VMValW (VMValW vm.SM (vm.SP - 2 * VMValInfoSize d) (VMValInfoSize d) (add64 a b))
          (vm.SP - VMValInfoSize d) (VMValInfoSize d) b)
        (vm.SP - 2 * VMValInfoSize d) (VMValInfoSize d)
        (add64 (add64 a b % 2 ^ (8 * VMValInfoSize d)) (add64 (not64 b) 1)),
      SP := vm.SP - VMValInfoSize d,
      PC := add64 (add64 (add64 vm.PC 3) (2 + VMValInfoSize d)) 3 } := by
    rw [tick_eq_tickOp _ OP_SUB (by dsimp only; exact h6), tickOp_SUB,
      execSUB_dd _ d (by dsimp only; exact h7) (by dsimp only; exact h8) hv hi]
    dsimp only
    rw [eS1, eS2, eA]
    rw [VMValR_writeback _ _ _ _ hw8, Nat.mod_eq_of_lt hb]
    rw [VMValR_write_disjoint _ _ _ _ _ _ (Or.inl (by omega)),
      VMValR_writeback _ _ _ _ hw8]
  refine ⟨{ vm with
      SM := VMValW
        (VMValW (VMValW vm.SM (vm.SP - 2 * VMValInfoSize d) (VMValInfoSize d) (add64 a b))
          (vm.SP - VMValInfoSize d) (VMValInfoSize d) b)
        (vm.SP - 2 * VMValInfoSize d) (VMValInfoSize d)
        (add64 (add64 a b % 2 ^ (8 * VMValInfoSize d)) (add64 (not64 b) 1)),
      SP := vm.SP - VMValInfoSize d,
      PC := add64 (add64 (add64 vm.PC 3) (2 + VMValInfoSize d)) 3 }, ?_, rfl, ?_⟩
  · show stepN 3 vm = _
    simp only [stepN, stepBind, e1, e2, e3]
  · show VMValR (VMValW _ (vm.SP - 2 * VMValInfoSize d) (VMValInfoSize d) _)
      (vm.SP - 2 * VMValInfoSize d) (VMValInfoSize d) = a
    rw [VMValR_writeback _ _ _ _ hw8]
    exact sub_add_roundtrip (VMValInfoSize d) a b hw8 ha hb

/-- A concrete running state holding 1-byte operands 5 and 7, about to run
ADD, PUSH 7, SUB with descriptor 0x01. -/
def vmW7 : VMContext :=
  { MM := fun _ => 0, BM := arenaOfList [0x40, 1, 1, 0x0c, 1, 7, 0x41, 1, 1],
    SM := arenaOfList [5, 7],
    PC := 0, FP := 0, SP := 2, Status := VMS_RUNNING }

theorem add_then_sub_restores_witness :
    ∃ v, stepN 3 vmW7 = .ok v ∧ v.SP = vmW7.SP - VMValInfoSize 1 ∧
      VMValR v.SM (vmW7.SP - 2 * VMValInfoSize 1) (VMValInfoSize 1) = 5 :=
  add_then_sub_restores vmW7 1 5 7 (by decide) (by decide) (by decide) (by decide)
    (by decide) (by decide) (by decide) (by decide) (by decide) (by decide) (by decide)
    (by decide) (by decide) (by decide) (by decide) (by decide) (by decide)

/-- A concrete running state whose stack top holds the jump offset 1; the
callee at pc 1 pushes an 8-byte zero and executes RETURN with descriptor
byte 0. -/
def vmC1 : VMContext :=
  { MM := fun _ => 0,
    BM := arenaOfList [0x04, 0x0c, 0x08, 0, 0, 0, 0, 0, 0, 0, 0, 0x05, 0],
    SM := arenaOfList [1, 0, 0, 0, 0, 0, 0, 0],
    PC := 0, FP := 0, SP := 8, Status := VMS_RUNNING }

/-- Claim C1 counterexample: the CALL/RETURN round trip with zero frame
adjustment and null descriptor ends with sp equal to 16 while the pre-CALL
sp minus the consumed 8-byte offset is 0, and with pc equal to 1 while the
pre-CALL pc is 0: sp and pc are not restored to the claimed values. -/
theorem call_return_keeps_linkage_words :
    isOk (stepN 3 vmC1) = true ∧
      (resState (stepN 3 vmC1)).FP = vmC1.FP ∧
      (resState (stepN 3 vmC1)).SP = 16 ∧ sub64 vmC1.SP 8 = 0 ∧ (16 : Nat) ≠ 0 ∧
      (resState (stepN 3 vmC1)).PC = 1 ∧ vmC1.PC = 0 ∧ (1 : Nat) ≠ 0 :=
  ⟨by decide, by decide, by decide, by decide, by decide, by decide, rfl, by decide⟩

/-- Claim C1 (amended): calling a routine that pushes an 8-byte zero frame
adjustment and RETURNs with descriptor byte 0 sets pc to the byte after the
CALL opcode, restores fp exactly, and leaves sp at the callee frame
pointer, 8 bytes above the pre-CALL sp: the consumed jump offset is
replaced by the two 8-byte linkage words, which remain on the stack. -/
theorem call_return_roundtrip (vm : VMContext)
    (hsp8 : 8 ≤ vm.SP) (hspb : vm.SP + 16 < U64) (hFPU : vm.FP < U64)
    (h0 : byteAt vm.BM vm.PC = OP_CALL)
    (hq0 : byteAt vm.BM (add64 vm.PC (VMValR vm.SM (vm.SP - 8) 8)) = OP_PUSH)
    (hq1 : byteAt vm.BM (add64 (add64 vm.PC (VMValR vm.SM (vm.SP - 8) 8)) 1) = 8)
    (hq2 : VMValR vm.BM (add64 (add64 vm.PC (VMValR vm.SM (vm.SP - 8) 8)) 2) 8 = 0)
    (hq3 : byteAt vm.BM
      (add64 (add64 vm.PC (VMValR vm.SM (vm.SP - 8) 8)) (2 + 8)) = OP_RETURN)
    (hq4 : byteAt vm.BM
      (add64 (add64 (add64 vm.PC (VMValR vm.SM (vm.SP - 8) 8)) (2 + 8)) 1) = 0) :
    ∃ v, stepN 3 vm = .ok v ∧ v.PC = add64 vm.PC 1 ∧ v.FP = vm.FP ∧
      v.SP = vm.SP + 8 := by
  have hU : U64 = 18446744073709551616 := rfl
  have hSPU : vm.SP < U64 := by omega
  have eS1 : sub64 vm.SP 8 = vm.SP - 8 := sub64_eq (by omega) hSPU
  have eA1 : add64 (vm.SP - 8) 8 = vm.SP := by
    rw [add64_eq (by omega)]
    omega
  have eA2 : add64 vm.SP 8 = vm.SP + 8 := add64_eq (by omega)
  have eA3 : add64 (vm.SP + 8) 8 = vm.SP + 16 := by
    rw [add64_eq (by omega)]
  have eS3 : sub64 (vm.SP + 16) 8 = vm.SP + 8 := by
    rw [sub64_eq (by omega) (by omega)]
    omega
  have eS4 : sub64 (vm.SP + 8) 8 = vm.SP := by
    rw [sub64_eq (by omega) (by omega)]
    omega
  have eS5 : sub64 (vm.SP + 8) 16 = vm.SP - 8 := by
    rw [sub64_eq (by omega) (by omega)]
    omega
  have eA4 : add64 0 (vm.SP + 8) = vm.SP + 8 := by
    rw [add64_eq (by omega)]
    omega
  have h2pow : (2 : Nat) ^ (8 * 8) = U64 := by norm_num [U64]
  have hsz : VMValInfoSize 8 = 8 := rfl
  have e1 : VMTick vm = .ok { vm with
      SM := VMValW (VMValW vm.SM (vm.SP - 8) 8 vm.FP) vm.SP 8 (add64 vm.PC 1),
      SP := vm.SP + 8,
      FP := vm.SP + 8,
      PC := add64 vm.PC (VMValR vm.SM (vm.SP - 8) 8) } := by
    rw [tick_eq_tickOp vm OP_CALL h0, tickOp_CALL]
    unfold execCALL
    dsimp only
    rw [eS1, eA1, eA2]
  have e2 : VMTick { vm with
      SM := VMValW (VMValW vm.SM (vm.SP - 8) 8 vm.FP) vm.SP 8 (add64 vm.PC 1),
      SP := vm.SP + 8,
      FP := vm.SP + 8,
      PC := add64 vm.PC (VMValR vm.SM (vm.SP - 8) 8) } = .ok { vm with
      SM := VMValW (VMValW (VMValW vm.SM (vm.SP - 8) 8 vm.FP) vm.SP 8 (add64 vm.PC 1))
        (vm.SP + 8) 8 0,
      SP := vm.SP + 16,
      FP := vm.SP + 8,
      PC := add64 (add64 vm.PC (VMValR vm.SM (vm.SP - 8) 8)) (2 + 8) } := by
    rw [tick_eq_tickOp _ OP_PUSH (by dsimp only; exact hq0), tickOp_PUSH,
      execPUSH_ok _ (by dsimp only; rw [hq1]; decide) (by dsimp only; rw [hq1]; decide)]
    dsimp only
    rw [hq1, hsz, hq2, eA3]
  have e3 : VMTick { vm with
      SM := VMValW (VMValW (VMValW vm.SM (vm.SP - 8) 8 vm.FP) vm.SP 8 (add64 vm.PC 1))
        (vm.SP + 8) 8 0,
      SP := vm.SP + 16,
      FP := vm.SP + 8,
      PC := add64 (add64 vm.PC (VMValR vm.SM (vm.SP - 8) 8)) (2 + 8) } = .ok { vm with
      SM := VMValW (VMValW (VMValW vm.SM (vm.SP - 8) 8 vm.FP) vm.SP 8 (add64 vm.PC 1))
        (vm.SP + 8) 8 0,
      SP := vm.SP + 8,
      FP := vm.FP,
      PC := add64 vm.PC 1 } := by
    rw [tick_eq_tickOp _ OP_RETURN (by dsimp only; exact hq3), tickOp_RETURN,
      execRETURN_d0 _ (by dsimp only; exact hq4)]
    dsimp only
    rw [eS3, eS4, eS5]
    rw [VMValR_writeback _ (vm.SP + 8) 8 0 (by norm_num), Nat.zero_mod, eA4]
    rw [VMValR_write_disjoint _ (vm.SP + 8) 8 0 vm.SP 8 (Or.inl (le_refl _)),
      VMValR_writeback _ vm.SP 8 (add64 vm.PC 1) (by norm_num)]
    rw [VMValR_write_disjoint _ (vm.SP + 8) 8 0 (vm.SP - 8) 8 (Or.inl (by omega)),
      VMValR_write_disjoint _ vm.SP 8 (add64 vm.PC 1) (vm.SP - 8) 8 (Or.inl (by omega)),
      VMValR_writeback _ (vm.SP - 8) 8 vm.FP (by norm_num)]
    rw [h2pow, Nat.mod_eq_of_lt (add64_lt vm.PC 1), Nat.mod_eq_of_lt hFPU]
  refine ⟨{ vm with
      SM := VMValW (VMValW (VMValW vm.SM (vm.SP - 8) 8 vm.FP) vm.SP 8 (add64 vm.PC 1))
        (vm.SP + 8) 8 0,
      SP := vm.SP + 8,
      FP := vm.FP,
      PC := add64 vm.PC 1 }, ?_, rfl, rfl, rfl⟩
  show stepN 3 vm = _
  simp only [stepN, stepBind, e1, e2, e3]

theorem call_return_roundtrip_witness :
    ∃ v, stepN 3 vmC1 = .ok v ∧ v.PC = add64 vmC1.PC 1 ∧ v.FP = vmC1.FP ∧
      v.SP = vmC1.SP + 8 :=
  call_return_roundtrip vmC1 (by decide) (by decide) (by decide) (by decide) (by decide)
    (by decide) (by decide) (by decide) (by decide)

end LittleVM
